import Mathlib

/-!
Verification development for the swift-wallet backend (walletApi app).

The Django wallet subsystem is shallowly embedded: wallets, transactions,
beneficiary rows, analytics rows and saved cards become Lean structures; the
database becomes an explicit `DBState` record threaded through the operations;
`Decimal(max_digits=12, decimal_places=2)` amounts become integers counted in
cents (the scale-2 fixed point representation is exact); Django's
`@db_transaction.atomic` is modelled by the `Except` monad — an operation that
raises returns `.error` and hands no successor state to the caller, which is
exactly the roll-back-everything semantics of the decorator.

One numerical subtlety is modelled exactly: `paystack_webhook` (views.py line
787) computes `verified_amount_kobo / 100` with Python's true division of
ints, which produces an IEEE-754 binary64 value, while `VerifyPaymentView`
(views.py line 899) computes `Decimal(verified_amount_kobo) / 100` exactly.
`roundFloat64 q` below is the rational value of the binary64 double nearest
to `q` (round to nearest; for the inputs `kobo / 100` arising here a tie is
impossible, because a tie would need the scaled value to be an odd multiple
of one half, which the factor 5^2 in the denominator of a non-dyadic
`kobo / 100` rules out, so round-half-up agrees with IEEE round-half-even).
Python compares this float against the stored `Decimal` exactly, which is
the rational equality used in the embedding.
-/

/-- Fuel-driven binary logarithm. Structurally recursive on the fuel so the
kernel can evaluate it on literals (`Nat.log2` itself is defined by
well-founded recursion, which the kernel cannot unfold). -/
def log2fuel : Nat → Nat → Nat
  | 0, _ => 0
  | f+1, n => if 2 ≤ n then log2fuel f (n / 2) + 1 else 0

/-- Binary logarithm computed with fuel `n`, which always suffices. -/
def natLog2 (n : Nat) : Nat := log2fuel n n

/-- The binade of a positive rational: the unique `e` with `2^e ≤ q < 2^(e+1)`,
computed from the binary logarithms of numerator and denominator. -/
def floatBinade (q : ℚ) : ℤ :=
  if (2:ℚ) ^ ((natLog2 q.num.natAbs : ℤ) - (natLog2 q.den : ℤ)) ≤ q
  then (natLog2 q.num.natAbs : ℤ) - (natLog2 q.den : ℤ)
  else (natLog2 q.num.natAbs : ℤ) - (natLog2 q.den : ℤ) - 1

/-- The rational value of the IEEE-754 binary64 double nearest to `q`
(for positive `q` in the normal range; `0` maps to `0`): the significand is
rounded to 53 bits. -/
def roundFloat64 (q : ℚ) : ℚ :=
  if 0 < q then
    ((round (q * (2:ℚ) ^ (52 - floatBinade q)) : ℤ) : ℚ) / (2:ℚ) ^ (52 - floatBinade q)
  else 0

/-- The result of Python's `int / int` true division, which is the correctly
rounded binary64 double of the exact quotient. -/
def pythonTrueDiv (num den : Nat) : ℚ := roundFloat64 ((num : ℚ) / (den : ℚ))

/-- Transaction direction, from `Transaction.TRANSACTION_TYPES` (models.py). -/
inductive TxType
  | credit
  | debit
deriving DecidableEq

/-- Transaction status, from `Transaction.TRANSACTION_STATUS` (models.py). -/
inductive TxStatus
  | pending
  | completed
  | failed
  | reversed
deriving DecidableEq

/-- Transaction category, from `Transaction.TRANSACTION_CATEGORIES` (models.py). -/
inductive TxCategory
  | transfer
  | deposit
  | withdrawal
  | bill_payment
  | airtime
  | refund
  | bonus
deriving DecidableEq

/-- The slice of `authApi.CustomUser` the wallet subsystem reads: the primary
key and the phone number used in narrations. -/
structure UserRec where
  id : Nat
  phone_number : String
deriving DecidableEq

/-- `walletApi.models.Wallet`. `balance` is in cents (scale-2 fixed point,
exact for `DecimalField(max_digits=12, decimal_places=2)`). The one-to-one
`user` relation is embedded directly. -/
structure Wallet where
  id : Nat
  user : UserRec
  balance : ℤ
  is_active : Bool
  is_frozen : Bool
deriving DecidableEq

/-- `Wallet.can_transact` (models.py lines 30-32):
`self.is_active and not self.is_frozen and self.balance >= amount`. -/
def Wallet.can_transact (w : Wallet) (amount : ℤ) : Bool :=
  w.is_active && !w.is_frozen && decide (amount ≤ w.balance)

/-- `walletApi.models.Transaction`. References are modelled as naturals drawn
from a fresh counter (see `generate_transaction_reference`); `amount`,
`balance_before` and `balance_after` are in cents; audit metadata
(`ip_address`, `user_agent`, `location`, `currency`) is not modelled.
`completed_at` is a day stamp or `none`. -/
structure Transaction where
  reference : Nat
  walletId : Nat
  sender : Option Nat
  recipient : Option Nat
  transaction_type : TxType
  transaction_category : TxCategory
  amount : ℤ
  balance_before : ℤ
  balance_after : ℤ
  status : TxStatus
  description : String
  narration : String
  completed_at : Option Nat
deriving DecidableEq

/-- `walletApi.models.BeneficiaryContact`, one row per (user, beneficiary). -/
structure BeneficiaryContact where
  userId : Nat
  beneficiaryId : Nat
  nickname : String
  is_favorite : Bool
  total_sent : ℤ
  transaction_count : Nat
  last_transaction_at : Option Nat
deriving DecidableEq

/-- `walletApi.models.TransactionAnalytics`, one row per (user, date). -/
structure AnalyticsRow where
  userId : Nat
  date : Nat
  total_credits : ℤ
  total_debits : ℤ
  total_transactions : Nat
  transfers_sent : Nat
  transfers_received : Nat
  bill_payments : Nat
  airtime_purchases : Nat
  closing_balance : ℤ
deriving DecidableEq

/-- `walletApi.models.SavedCard`: a stored Paystack charge authorization. -/
structure SavedCard where
  userId : Nat
  authorization_code : String
  card_type : String
  last4 : String
  exp_month : String
  exp_year : String
  bank : String
  nickname : String
  is_default : Bool
  is_active : Bool
deriving DecidableEq

/-- The database state read and written by the wallet operations. `nextRef`
feeds the reference generator; `today` stands for the current date used for
`timezone.now()` day stamps. -/
structure DBState where
  wallets : List Wallet
  transactions : List Transaction
  beneficiaries : List BeneficiaryContact
  analytics : List AnalyticsRow
  savedCards : List SavedCard
  nextRef : Nat
  today : Nat
deriving DecidableEq

/-- `Wallet.objects.get(id=...)` respectively `select_for_update().get(id=...)`:
row locks serialize access and are invisible in this sequential model. -/
def findWalletById (s : DBState) (wid : Nat) : Option Wallet :=
  s.wallets.find? (fun w => w.id == wid)

/-- `Wallet.objects.get(user=...)`. -/
def findWalletByUser (s : DBState) (uid : Nat) : Option Wallet :=
  s.wallets.find? (fun w => w.user.id == uid)

/-- `wallet.save()`: writes the row with this primary key back. -/
def saveWallet (s : DBState) (w : Wallet) : DBState :=
  { s with wallets := s.wallets.map (fun x => if x.id == w.id then w else x) }

/-- `Transaction.objects.get(reference=...)`. -/
def findTransaction (s : DBState) (ref : Nat) : Option Transaction :=
  s.transactions.find? (fun t => t.reference == ref)

/-- `transaction.save()` on an existing row. -/
def saveTransaction (s : DBState) (t : Transaction) : DBState :=
  { s with transactions :=
      s.transactions.map (fun x => if x.reference == t.reference then t else x) }

/-- `Transaction.objects.create(...)`. -/
def insertTransaction (s : DBState) (t : Transaction) : DBState :=
  { s with transactions := t :: s.transactions }

/-- The balance column of the wallet row with the given id. -/
def walletBalance (s : DBState) (wid : Nat) : Option ℤ :=
  (findWalletById s wid).map (fun w => w.balance)

/-- `generate_transaction_reference` (utils.py lines 49-53) builds
`TXN-<timestamp>-<random hex>`; the database enforces uniqueness of committed
references (`reference` is `unique=True`), which the model captures by
drawing from a fresh counter. -/
def generate_transaction_reference (s : DBState) : Nat × DBState :=
  (s.nextRef, { s with nextRef := s.nextRef + 1 })

/-- `update_analytics` (utils.py lines 218-244): upsert of the daily row for
the user, with `closing_balance` read from `user.wallet.balance`. -/
def update_analytics (s : DBState) (uid : Nat) (txn : Transaction) : DBState :=
  let bal : ℤ := match findWalletByUser s uid with
    | some w => w.balance
    | none => 0
  let row : AnalyticsRow := match s.analytics.find? (fun a => a.userId == uid && a.date == s.today) with
    | some a => a
    | none =>
      { userId := uid, date := s.today, total_credits := 0, total_debits := 0,
        total_transactions := 0, transfers_sent := 0, transfers_received := 0,
        bill_payments := 0, airtime_purchases := 0, closing_balance := bal }
  let row : AnalyticsRow := match txn.transaction_type with
    | .credit =>
      { row with
        total_credits := row.total_credits + txn.amount,
        transfers_received :=
          if txn.transaction_category == .transfer then row.transfers_received + 1
          else row.transfers_received }
    | .debit =>
      { row with
        total_debits := row.total_debits + txn.amount,
        transfers_sent :=
          if txn.transaction_category == .transfer then row.transfers_sent + 1
          else row.transfers_sent,
        bill_payments :=
          if txn.transaction_category != .transfer && txn.transaction_category == .bill_payment
          then row.bill_payments + 1 else row.bill_payments,
        airtime_purchases :=
          if txn.transaction_category != .transfer && txn.transaction_category != .bill_payment
              && txn.transaction_category == .airtime
          then row.airtime_purchases + 1 else row.airtime_purchases }
  let row : AnalyticsRow :=
    { row with total_transactions := row.total_transactions + 1, closing_balance := bal }
  let rows : List AnalyticsRow :=
    if s.analytics.any (fun a => a.userId == uid && a.date == s.today) then
      s.analytics.map (fun a => if a.userId == uid && a.date == s.today then row else a)
    else row :: s.analytics
  { s with analytics := rows }

/-- The dictionary returned by `process_transfer`. -/
structure TransferResult where
  debit_transaction : Transaction
  credit_transaction : Transaction
  sender_balance : ℤ
  recipient_balance : ℤ
deriving DecidableEq

/-- `process_transfer` (utils.py lines 56-137). Checks run in source order:
sender `can_transact`, recipient wallet lookup, recipient active/frozen; then
the debit leg, the credit leg, the beneficiary upsert and both analytics
updates, all inside `@db_transaction.atomic` (an exception leaves the store
untouched, hence `.error` carries no state). -/
def process_transfer (s : DBState) (sender_wallet : Wallet) (recipient : UserRec)
    (amount : ℤ) (narration : String) : Except String (DBState × TransferResult) :=
  if !sender_wallet.can_transact amount then
    .error "Insufficient balance or wallet is frozen"
  else
    match findWalletByUser s recipient.id with
    | none => .error "Recipient wallet not found"
    | some recipient_wallet =>
      if !recipient_wallet.is_active || recipient_wallet.is_frozen then
        .error "Recipient wallet is not active"
      else
        match findWalletById s sender_wallet.id with
        | none => .error "Wallet matching query does not exist"
        | some sw =>
          let sender_balance_before := sw.balance
          let sw1 : Wallet := { sw with balance := sw.balance - amount }
          let s1 := saveWallet s sw1
          let gen1 := generate_transaction_reference s1
          let debit_txn : Transaction :=
            { reference := gen1.1, walletId := sw1.id,
              sender := some sw1.user.id, recipient := some recipient.id,
              transaction_type := .debit, transaction_category := .transfer,
              amount := amount,
              balance_before := sender_balance_before, balance_after := sw1.balance,
              status := .completed, description := "",
              narration :=
                if narration == "" then "Transfer to " ++ recipient.phone_number
                else narration,
              completed_at := some s.today }
          let s2 := insertTransaction gen1.2 debit_txn
          let recipient_balance_before := recipient_wallet.balance
          let rw1 : Wallet := { recipient_wallet with balance := recipient_wallet.balance + amount }
          let s3 := saveWallet s2 rw1
          let gen2 := generate_transaction_reference s3
          let credit_txn : Transaction :=
            { reference := gen2.1, walletId := rw1.id,
              sender := some sw1.user.id, recipient := some recipient.id,
              transaction_type := .credit, transaction_category := .transfer,
              amount := amount,
              balance_before := recipient_balance_before, balance_after := rw1.balance,
              status := .completed, description := "",
              narration :=
                if narration == "" then "Transfer from " ++ sw1.user.phone_number
                else narration,
              completed_at := some s.today }
          let s4 := insertTransaction gen2.2 credit_txn
          let ben : BeneficiaryContact :=
            match s4.beneficiaries.find? (fun b => b.userId == sw1.user.id && b.beneficiaryId == recipient.id) with
            | some b => b
            | none =>
              { userId := sw1.user.id, beneficiaryId := recipient.id, nickname := "",
                is_favorite := false, total_sent := 0, transaction_count := 0,
                last_transaction_at := none }
          let ben : BeneficiaryContact :=
            { ben with total_sent := ben.total_sent + amount,
                       transaction_count := ben.transaction_count + 1,
                       last_transaction_at := some s.today }
          let bens : List BeneficiaryContact :=
            if s4.beneficiaries.any (fun b => b.userId == sw1.user.id && b.beneficiaryId == recipient.id) then
              s4.beneficiaries.map (fun b => if b.userId == sw1.user.id && b.beneficiaryId == recipient.id then ben else b)
            else ben :: s4.beneficiaries
          let s5 : DBState := { s4 with beneficiaries := bens }
          let s6 := update_analytics s5 sw1.user.id debit_txn
          let s7 := update_analytics s6 recipient.id credit_txn
          .ok (s7, { debit_transaction := debit_txn, credit_transaction := credit_txn,
                     sender_balance := sw1.balance, recipient_balance := rw1.balance })

/-- The order in which `process_transfer` acquires its two row locks:
`Wallet.objects.select_for_update().get(user=recipient)` at utils.py line 66
locks the recipient wallet first, and
`Wallet.objects.select_for_update().get(id=sender_wallet.id)` at line 74
locks the sender wallet second. -/
def process_transfer_lock_order (sender_wallet_id recipient_wallet_id : Nat) : List Nat :=
  [recipient_wallet_id, sender_wallet_id]

/-- The dictionary returned by `add_money_to_wallet` and `process_bill_payment`. -/
structure SingleTxnResult where
  transaction : Transaction
  new_balance : ℤ
deriving DecidableEq

/-- `add_money_to_wallet` (utils.py lines 140-173). -/
def add_money_to_wallet (s : DBState) (wallet : Wallet) (amount : ℤ)
    (payment_method : String) (description : String) :
    Except String (DBState × SingleTxnResult) :=
  match findWalletById s wallet.id with
  | none => .error "Wallet matching query does not exist"
  | some w =>
    let balance_before := w.balance
    let w1 : Wallet := { w with balance := w.balance + amount }
    let s1 := saveWallet s w1
    let gen := generate_transaction_reference s1
    let txn : Transaction :=
      { reference := gen.1, walletId := w1.id,
        sender := none, recipient := some w1.user.id,
        transaction_type := .credit, transaction_category := .deposit,
        amount := amount,
        balance_before := balance_before, balance_after := w1.balance,
        status := .completed,
        description :=
          if description == "" then "Deposit via " ++ payment_method else description,
        narration := "Account funded via " ++ payment_method,
        completed_at := some s.today }
    let s2 := insertTransaction gen.2 txn
    let s3 := update_analytics s2 w1.user.id txn
    .ok (s3, { transaction := txn, new_balance := w1.balance })

/-- Python `str.title()` applied after replacing underscores by spaces, as in
the bill-payment narration. -/
def titleWords (sStr : String) : String :=
  String.intercalate " " (((sStr.replace "_" " ").splitOn " ").map String.capitalize)

/-- `process_bill_payment` (utils.py lines 176-215). Only the `description`
key of the metadata dict is read. -/
def process_bill_payment (s : DBState) (wallet : Wallet) (bill_type : String)
    (amount : ℤ) (metadata_description : Option String) :
    Except String (DBState × SingleTxnResult) :=
  if !wallet.can_transact amount then
    .error "Insufficient balance or wallet is frozen"
  else
    match findWalletById s wallet.id with
    | none => .error "Wallet matching query does not exist"
    | some w =>
      let balance_before := w.balance
      let w1 : Wallet := { w with balance := w.balance - amount }
      let s1 := saveWallet s w1
      let gen := generate_transaction_reference s1
      let txn : Transaction :=
        { reference := gen.1, walletId := w1.id,
          sender := some w1.user.id, recipient := none,
          transaction_type := .debit,
          transaction_category :=
            if bill_type != "airtime" && bill_type != "data" then .bill_payment
            else .airtime,
          amount := amount,
          balance_before := balance_before, balance_after := w1.balance,
          status := .completed,
          description := metadata_description.getD "",
          narration := titleWords bill_type ++ " payment",
          completed_at := some s.today }
      let s2 := insertTransaction gen.2 txn
      let s3 := update_analytics s2 w1.user.id txn
      .ok (s3, { transaction := txn, new_balance := w1.balance })

/-- `create_pending_transaction` (utils.py lines 12-47): records the intent of
an external deposit with `balance_after = balance_before` and status pending. -/
def create_pending_transaction (s : DBState) (wallet : Wallet) (amount : ℤ) :
    Except String (DBState × Nat × Transaction) :=
  match findWalletById s wallet.id with
  | none => .error "Wallet matching query does not exist"
  | some w =>
    let gen := generate_transaction_reference s
    let pending_txn : Transaction :=
      { reference := gen.1, walletId := w.id,
        sender := none, recipient := some w.user.id,
        transaction_type := .credit, transaction_category := .deposit,
        amount := amount,
        balance_before := w.balance, balance_after := w.balance,
        status := .pending, description := "",
        narration := "Initiated deposit via Paystack (Pending)",
        completed_at := none }
    .ok (insertTransaction gen.2 pending_txn, gen.1, pending_txn)

/-- The slice of Paystack's `data.authorization` object that the code reads. -/
structure VerifyAuth where
  authorization_code : String
  card_type : String
  last4 : String
  exp_month : String
  exp_year : String
  bank : String
deriving DecidableEq

/-- The provider verification response
(`GET /transaction/verify/<reference>`): top-level boolean `status`, inner
`data.status` string, `data.amount` in integer kobo, and the optional
charge authorization. -/
structure VerifyData where
  status : Bool
  data_status : String
  amount : Nat
  authorization : Option VerifyAuth
deriving DecidableEq

/-- The distinct responses `paystack_webhook` can produce after the signature,
JSON and event-type guards have passed. -/
inductive WebhookOutcome
  | referenceNotFound
  | alreadyCompleted
  | amountMismatch
  | walletCredited
  | verificationFailed
  | internalError
deriving DecidableEq

/-- The HTTP status code each webhook outcome is served with
(views.py lines 760-825). -/
def WebhookOutcome.httpStatus : WebhookOutcome → Nat
  | .referenceNotFound => 404
  | .alreadyCompleted => 200
  | .amountMismatch => 400
  | .walletCredited => 200
  | .verificationFailed => 200
  | .internalError => 500

/-- `paystack_webhook` (views.py lines 707-825), entered after signature
verification, JSON parsing and the `charge.success` event filter, with the
notification reference and claimed amount parsed from the body and `verify`
the provider re-verification response. The claimed `notified_amount_kobo` is
parsed (line 755) but never used for the decision — exactly as in the source.
The amount check divides `verify.amount / 100` in Python float arithmetic
(line 787) and compares it exactly against the stored decimal amount. -/
def paystack_webhook (s : DBState) (reference : Nat) (notified_amount_kobo : Nat)
    (verify : VerifyData) : WebhookOutcome × DBState :=
  match findTransaction s reference with
  | none => (.referenceNotFound, s)
  | some transaction =>
    if transaction.status = .completed then
      (.alreadyCompleted, s)
    else if verify.status && verify.data_status == "success" then
      if pythonTrueDiv verify.amount 100 ≠ (transaction.amount : ℚ) / 100 then
        (.amountMismatch,
          saveTransaction s
            { transaction with
              status := .failed
              narration := "SECURITY WARNING: Amount mismatch after verification." })
      else
        match findWalletById s transaction.walletId with
        | none => (.internalError, s)
        | some wallet =>
          let balance_before := wallet.balance
          let wallet1 : Wallet := { wallet with balance := wallet.balance + transaction.amount }
          let s1 := saveWallet s wallet1
          let transaction1 : Transaction :=
            { transaction with
              status := .completed
              transaction_type := .credit
              transaction_category := .deposit
              narration := "Deposit via Paystack. Ref: " ++ toString reference
              balance_before := balance_before
              balance_after := wallet1.balance
              completed_at := some s.today }
          (.walletCredited, saveTransaction s1 transaction1)
    else
      (.verificationFailed,
        saveTransaction s
          { transaction with
            status := .failed
            narration := "Verification Failed. Paystack Status: " ++ verify.data_status })

/-- The distinct responses of `VerifyPaymentView.get`. -/
inductive PollOutcome
  | notFound
  | unauthorized
  | alreadyCompleted
  | amountMismatch
  | walletCredited
  | providerNotSuccess (payment_status : String)
  | internalError
deriving DecidableEq

/-- The HTTP status code of each poll outcome (views.py lines 852-956). -/
def PollOutcome.httpStatus : PollOutcome → Nat
  | .notFound => 404
  | .unauthorized => 403
  | .alreadyCompleted => 200
  | .amountMismatch => 400
  | .walletCredited => 200
  | .providerNotSuccess _ => 200
  | .internalError => 500

/-- Whether the response body carries `status: success`
(both the already-completed and the fresh-credit responses do). -/
def PollOutcome.isSuccess : PollOutcome → Bool
  | .alreadyCompleted => true
  | .walletCredited => true
  | _ => false

/-- The saved-card block of `VerifyPaymentView.get` (views.py lines 927-942):
persist the charge authorization as a `SavedCard` if one came back, has a
nonempty code, and no row with that code exists yet; the first card of a user
becomes the default. -/
def applySavedCard (s : DBState) (userId0 : Nat) (vauth : Option VerifyAuth) : DBState :=
  match vauth with
  | some auth =>
    if auth.authorization_code ≠ "" then
      if !(s.savedCards.any (fun c => c.authorization_code == auth.authorization_code)) then
        { s with savedCards :=
            { userId := userId0,
              authorization_code := auth.authorization_code,
              card_type := auth.card_type, last4 := auth.last4,
              exp_month := auth.exp_month, exp_year := auth.exp_year,
              bank := auth.bank, nickname := "",
              is_default := !(s.savedCards.any (fun c => c.userId == userId0)),
              is_active := true } :: s.savedCards }
      else s
    else s
  | none => s

/-- `VerifyPaymentView.get` (views.py lines 849-956): the authenticated pull
entry point for reconciliation. Ownership is checked first
(`transaction.wallet.user != user`, Django model equality is primary-key
equality), then the idempotency guard, then the provider verification with
exact `Decimal(kobo) / 100` conversion, wallet credit and opportunistic
`SavedCard` persistence. -/
def verify_payment_get (s : DBState) (user : UserRec) (reference : Nat)
    (verify : VerifyData) : PollOutcome × DBState :=
  match findTransaction s reference with
  | none => (.notFound, s)
  | some transaction =>
    match findWalletById s transaction.walletId with
    | none => (.internalError, s)
    | some txWallet =>
      if txWallet.user.id ≠ user.id then
        (.unauthorized, s)
      else if transaction.status = .completed then
        (.alreadyCompleted, s)
      else if verify.status && verify.data_status == "success" then
        if (verify.amount : ℚ) / 100 ≠ (transaction.amount : ℚ) / 100 then
          (.amountMismatch,
            saveTransaction s
              { transaction with
                status := .failed
                narration := "Amount mismatch" })
        else
          let balance_before := txWallet.balance
          let wallet1 : Wallet := { txWallet with balance := txWallet.balance + transaction.amount }
          let s1 := saveWallet s wallet1
          let transaction1 : Transaction :=
            { transaction with
              status := .completed
              transaction_type := .credit
              transaction_category := .deposit
              narration := "Deposit via Paystack. Ref: " ++ toString reference
              balance_before := balance_before
              balance_after := wallet1.balance
              completed_at := some s.today }
          let s2 := saveTransaction s1 transaction1
          (.walletCredited, applySavedCard s2 user.id verify.authorization)
      else
        (.providerNotSuccess verify.data_status, s)

/-- The signed value of a transaction: credits add to the owning wallet,
debits subtract. -/
def signedAmount (t : Transaction) : ℤ :=
  match t.transaction_type with
  | .credit => t.amount
  | .debit => -t.amount

/-- Wallet primary keys are unique (the database guarantees this). -/
def walletIdsNodup (s : DBState) : Prop :=
  (s.wallets.map (fun w => w.id)).Nodup

/-- Example user A. -/
def userA : UserRec := { id := 1, phone_number := "+2340000000001" }

/-- Example user B. -/
def userB : UserRec := { id := 2, phone_number := "+2340000000002" }

/-- Example wallet of user A with balance 1000.00. -/
def walletA : Wallet :=
  { id := 1, user := userA, balance := 100000, is_active := true, is_frozen := false }

/-- Example wallet of user B with balance 500.00. -/
def walletB : Wallet :=
  { id := 2, user := userB, balance := 50000, is_active := true, is_frozen := false }

/-- Base example state: two wallets, empty ledger. -/
def baseState : DBState :=
  { wallets := [walletA, walletB], transactions := [], beneficiaries := [],
    analytics := [], savedCards := [], nextRef := 10, today := 0 }

/-- A pending 500.00 top-up of wallet A under reference 5. -/
def pendingTxn : Transaction :=
  { reference := 5, walletId := 1, sender := none, recipient := some 1,
    transaction_type := .credit, transaction_category := .deposit,
    amount := 50000, balance_before := 100000, balance_after := 100000,
    status := .pending, description := "",
    narration := "Initiated deposit via Paystack (Pending)", completed_at := none }

/-- Base state with the pending 500.00 top-up recorded. -/
def pendingState : DBState := { baseState with transactions := [pendingTxn] }

/-- The same pending top-up but for 500.10 — an amount whose decimal value is
not representable in binary64. -/
def pendingTxn1010 : Transaction := { pendingTxn with amount := 50010 }

/-- Base state with the pending 500.10 top-up recorded. -/
def pendingState1010 : DBState := { baseState with transactions := [pendingTxn1010] }

/-- Provider verification: success for 500.00 (50000 kobo), no authorization. -/
def verifySuccess500 : VerifyData :=
  { status := true, data_status := "success", amount := 50000, authorization := none }

/-- Provider verification: success for 500.10 (50010 kobo). -/
def verifySuccess50010 : VerifyData :=
  { status := true, data_status := "success", amount := 50010, authorization := none }

/-- A reusable charge authorization as returned by the provider. -/
def verifyAuth1 : VerifyAuth :=
  { authorization_code := "AUTH_8dfhjjdt", card_type := "visa", last4 := "4081",
    exp_month := "12", exp_year := "2030", bank := "TEST BANK" }

/-- Provider verification: success for 500.00 with a reusable authorization. -/
def verifySuccessAuth : VerifyData :=
  { status := true, data_status := "success", amount := 50000,
    authorization := some verifyAuth1 }

/-- The transaction record after the 500.00 top-up has been reconciled. -/
def creditedTxn : Transaction :=
  { pendingTxn with
    status := .completed
    narration := "Deposit via Paystack. Ref: 5"
    balance_before := 100000
    balance_after := 150000
    completed_at := some 0 }

/-- The state after the 500.00 top-up has been reconciled and credited. -/
def creditedState : DBState :=
  { baseState with
    wallets := [{ walletA with balance := 150000 }, walletB],
    transactions := [creditedTxn] }

/-- The failed transaction the webhook writes on its (spurious) 500.10
amount-mismatch. -/
def failedTxn1010 : Transaction :=
  { pendingTxn1010 with
    status := .failed
    narration := "SECURITY WARNING: Amount mismatch after verification." }

/-- The state after the webhook has flagged the 500.10 top-up as mismatched. -/
def failedState1010 : DBState := { baseState with transactions := [failedTxn1010] }

/-- The transaction record after the poll path reconciles the 500.10 top-up. -/
def creditedTxn1010 : Transaction :=
  { pendingTxn1010 with
    status := .completed
    narration := "Deposit via Paystack. Ref: 5"
    balance_before := 100000
    balance_after := 150010
    completed_at := some 0 }

/-- The state after the poll path reconciles and credits the 500.10 top-up. -/
def creditedState1010 : DBState :=
  { baseState with
    wallets := [{ walletA with balance := 150010 }, walletB],
    transactions := [creditedTxn1010] }

/-- Provider verification claiming 600.00 (60000 kobo) — a wrong amount for
the 500.00 top-up. -/
def verifyWrong600 : VerifyData :=
  { status := true, data_status := "success", amount := 60000, authorization := none }

/-- The debit leg written by the example transfer of 30.00 from A to B. -/
def transferDebitTxn : Transaction :=
  { reference := 10, walletId := 1, sender := some 1, recipient := some 2,
    transaction_type := .debit, transaction_category := .transfer, amount := 3000,
    balance_before := 100000, balance_after := 97000, status := .completed,
    description := "", narration := "Transfer to +2340000000002", completed_at := some 0 }

/-- The credit leg written by the example transfer of 30.00 from A to B. -/
def transferCreditTxn : Transaction :=
  { reference := 11, walletId := 2, sender := some 1, recipient := some 2,
    transaction_type := .credit, transaction_category := .transfer, amount := 3000,
    balance_before := 50000, balance_after := 53000, status := .completed,
    description := "", narration := "Transfer from +2340000000001", completed_at := some 0 }

/-- User A's daily analytics row after the example transfer. -/
def transferAnalyticsA : AnalyticsRow :=
  { userId := 1, date := 0, total_credits := 0, total_debits := 3000,
    total_transactions := 1, transfers_sent := 1, transfers_received := 0,
    bill_payments := 0, airtime_purchases := 0, closing_balance := 97000 }

/-- User B's daily analytics row after the example transfer. -/
def transferAnalyticsB : AnalyticsRow :=
  { userId := 2, date := 0, total_credits := 3000, total_debits := 0,
    total_transactions := 1, transfers_sent := 0, transfers_received := 1,
    bill_payments := 0, airtime_purchases := 0, closing_balance := 53000 }

/-- The full database state after the example transfer of 30.00 from A to B. -/
def transferState : DBState :=
  { wallets := [{ walletA with balance := 97000 }, { walletB with balance := 53000 }],
    transactions := [transferCreditTxn, transferDebitTxn],
    beneficiaries :=
      [{ userId := 1, beneficiaryId := 2, nickname := "", is_favorite := false,
         total_sent := 3000, transaction_count := 1, last_transaction_at := some 0 }],
    analytics := [transferAnalyticsB, transferAnalyticsA],
    savedCards := [], nextRef := 12, today := 0 }

/-- The result dictionary of the example transfer. -/
def transferResultVal : TransferResult :=
  { debit_transaction := transferDebitTxn, credit_transaction := transferCreditTxn,
    sender_balance := 97000, recipient_balance := 53000 }

/-- The card persisted when the 500.00 top-up is reconciled by poll with
`verifySuccessAuth`. -/
def savedCardA : SavedCard :=
  { userId := 1, authorization_code := "AUTH_8dfhjjdt", card_type := "visa",
    last4 := "4081", exp_month := "12", exp_year := "2030", bank := "TEST BANK",
    nickname := "", is_default := true, is_active := true }

/-- The state after the poll path reconciles the 500.00 top-up and saves the
card from `verifySuccessAuth`. -/
def creditedStateCard : DBState := { creditedState with savedCards := [savedCardA] }

theorem log2fuel_eq (f n : Nat) (h : n ≤ f) : log2fuel f n = Nat.log2 n := by
  induction f generalizing n with
  | zero =>
    interval_cases n
    simp [log2fuel, Nat.log2]
  | succ f ih =>
    simp only [log2fuel]
    rw [Nat.log2]
    by_cases h2 : 2 ≤ n
    · rw [if_pos h2, if_pos h2, ih]
      omega
    · rw [if_neg h2, if_neg h2]

theorem natLog2_eq (n : Nat) : natLog2 n = Nat.log2 n := log2fuel_eq n n le_rfl

theorem floatBinade_bounds (q : ℚ) (hq : 0 < q) :
    (2:ℚ) ^ floatBinade q ≤ q ∧ q < (2:ℚ) ^ (floatBinade q + 1) := by
  have hnum : 0 < q.num := Rat.num_pos.mpr hq
  have ha0 : q.num.natAbs ≠ 0 := Int.natAbs_ne_zero.mpr hnum.ne'
  have hd0 : q.den ≠ 0 := q.den_pos.ne'
  have hdpos : (0:ℚ) < (q.den : ℚ) := by exact_mod_cast q.den_pos
  have hqd : q * (q.den : ℚ) = (q.num.natAbs : ℚ) := by
    have hcast : ((q.num.natAbs : ℤ) : ℚ) = (q.num.natAbs : ℚ) :=
      Int.cast_natCast q.num.natAbs
    rw [Rat.mul_den_eq_num, ← hcast, Int.natAbs_of_nonneg hnum.le]
  have h1 : 2 ^ Nat.log2 q.num.natAbs ≤ q.num.natAbs := Nat.log2_self_le ha0
  have h2 : q.num.natAbs < 2 ^ (Nat.log2 q.num.natAbs + 1) := Nat.lt_log2_self
  have h3 : 2 ^ Nat.log2 q.den ≤ q.den := Nat.log2_self_le hd0
  have h4 : q.den < 2 ^ (Nat.log2 q.den + 1) := Nat.lt_log2_self
  have hA1 : (2:ℚ) ^ (Nat.log2 q.num.natAbs : ℤ) ≤ (q.num.natAbs : ℚ) := by
    rw [zpow_natCast]
    exact_mod_cast h1
  have hA2 : (q.num.natAbs : ℚ) < 2 ^ ((Nat.log2 q.num.natAbs : ℤ) + 1) := by
    have : ((Nat.log2 q.num.natAbs : ℤ) + 1) = ((Nat.log2 q.num.natAbs + 1 : ℕ) : ℤ) := by
      push_cast
      ring
    rw [this, zpow_natCast]
    exact_mod_cast h2
  have hB1 : (2:ℚ) ^ (Nat.log2 q.den : ℤ) ≤ (q.den : ℚ) := by
    rw [zpow_natCast]
    exact_mod_cast h3
  have hB2 : (q.den : ℚ) < 2 ^ ((Nat.log2 q.den : ℤ) + 1) := by
    have : ((Nat.log2 q.den : ℤ) + 1) = ((Nat.log2 q.den + 1 : ℕ) : ℤ) := by
      push_cast
      ring
    rw [this, zpow_natCast]
    exact_mod_cast h4
  have hupper : q < 2 ^ ((Nat.log2 q.num.natAbs : ℤ) - (Nat.log2 q.den : ℤ) + 1) := by
    refine (mul_lt_mul_right hdpos).mp ?_
    rw [hqd]
    calc (q.num.natAbs : ℚ)
        < 2 ^ ((Nat.log2 q.num.natAbs : ℤ) + 1) := hA2
      _ = 2 ^ ((Nat.log2 q.num.natAbs : ℤ) - (Nat.log2 q.den : ℤ) + 1) *
            2 ^ (Nat.log2 q.den : ℤ) := by
          rw [← zpow_add₀ (two_ne_zero)]
          congr 1
          ring
      _ ≤ 2 ^ ((Nat.log2 q.num.natAbs : ℤ) - (Nat.log2 q.den : ℤ) + 1) * (q.den : ℚ) := by
          exact mul_le_mul_of_nonneg_left hB1 (zpow_pos two_pos _).le
  have hlower : 2 ^ ((Nat.log2 q.num.natAbs : ℤ) - (Nat.log2 q.den : ℤ) - 1) < q := by
    refine (mul_lt_mul_right hdpos).mp ?_
    rw [hqd]
    calc 2 ^ ((Nat.log2 q.num.natAbs : ℤ) - (Nat.log2 q.den : ℤ) - 1) * (q.den : ℚ)
        < 2 ^ ((Nat.log2 q.num.natAbs : ℤ) - (Nat.log2 q.den : ℤ) - 1) *
            2 ^ ((Nat.log2 q.den : ℤ) + 1) := by
          exact mul_lt_mul_of_pos_left hB2 (zpow_pos two_pos _)
      _ = 2 ^ (Nat.log2 q.num.natAbs : ℤ) := by
          rw [← zpow_add₀ (two_ne_zero)]
          congr 1
          ring
      _ ≤ (q.num.natAbs : ℚ) := hA1
  rw [floatBinade, natLog2_eq, natLog2_eq]
  by_cases hcase :
      (2:ℚ) ^ ((Nat.log2 q.num.natAbs : ℤ) - (Nat.log2 q.den : ℤ)) ≤ q
  · rw [if_pos hcase]
    exact ⟨hcase, hupper⟩
  · rw [if_neg hcase]
    refine ⟨hlower.le, ?_⟩
    have : (Nat.log2 q.num.natAbs : ℤ) - (Nat.log2 q.den : ℤ) - 1 + 1 =
        (Nat.log2 q.num.natAbs : ℤ) - (Nat.log2 q.den : ℤ) := by ring
    rw [this]
    exact lt_of_not_le hcase

theorem floatBinade_lt_of_lt (q : ℚ) (hq : 0 < q) (m : ℤ) (h : q < 2 ^ m) :
    floatBinade q < m := by
  have h1 := (floatBinade_bounds q hq).1
  have : (2:ℚ) ^ floatBinade q < 2 ^ m := lt_of_le_of_lt h1 h
  exact (zpow_lt_zpow_iff_right₀ one_lt_two).mp this

theorem roundFloat64_error (q : ℚ) (hq : 0 < q) :
    |roundFloat64 q - q| ≤ (2:ℚ) ^ (floatBinade q - 53) := by
  have h2s : (0:ℚ) < 2 ^ (52 - floatBinade q) := zpow_pos two_pos _
  rw [roundFloat64, if_pos hq]
  have hsplit :
      ((round (q * (2:ℚ) ^ (52 - floatBinade q)) : ℤ) : ℚ) / (2:ℚ) ^ (52 - floatBinade q) - q =
      (((round (q * (2:ℚ) ^ (52 - floatBinade q)) : ℤ) : ℚ) - q * (2:ℚ) ^ (52 - floatBinade q)) /
        (2:ℚ) ^ (52 - floatBinade q) := by
    field_simp
    ring
  rw [hsplit, abs_div, abs_of_pos h2s]
  have hb : |((round (q * (2:ℚ) ^ (52 - floatBinade q)) : ℤ) : ℚ) -
      q * (2:ℚ) ^ (52 - floatBinade q)| ≤ 1 / 2 := by
    rw [abs_sub_comm]
    exact abs_sub_round (q * (2:ℚ) ^ (52 - floatBinade q))
  have hstep := (div_le_div_iff_of_pos_right h2s).mpr hb
  refine hstep.trans (le_of_eq ?_)
  have hpow : (2:ℚ) ^ (floatBinade q - 53) =
      (2:ℚ) ^ (-1 : ℤ) / (2:ℚ) ^ (52 - floatBinade q) := by
    rw [← zpow_sub₀ (two_ne_zero)]
    congr 1
    ring
  rw [hpow, zpow_neg_one]
  norm_num

theorem roundFloat64_div100_injective (k : ℕ) (c : ℤ) (hk : k < 2 ^ 40)
    (h : roundFloat64 ((k : ℚ) / 100) = (c : ℚ) / 100) : (k : ℤ) = c := by
  rcases Nat.eq_zero_or_pos k with rfl | hkpos
  · rw [Nat.cast_zero, zero_div, roundFloat64, if_neg (lt_irrefl 0)] at h
    have : (c : ℚ) = 0 := by
      field_simp at h
      exact_mod_cast h.symm
    exact_mod_cast this.symm
  · have hq : 0 < (k : ℚ) / 100 := by positivity
    have hub : (k : ℚ) / 100 < 2 ^ (34 : ℤ) := by
      rw [div_lt_iff₀ (by norm_num : (0:ℚ) < 100)]
      have hk' : (k : ℚ) < 2 ^ 40 := by exact_mod_cast hk
      calc (k : ℚ) < 2 ^ 40 := hk'
        _ ≤ 2 ^ (34 : ℤ) * 100 := by norm_num
    have hbin : floatBinade ((k : ℚ) / 100) ≤ 33 := by
      have := floatBinade_lt_of_lt ((k : ℚ) / 100) hq 34 hub
      omega
    have herr := roundFloat64_error ((k : ℚ) / 100) hq
    rw [h] at herr
    have hmono : (2:ℚ) ^ (floatBinade ((k : ℚ) / 100) - 53) ≤ (2:ℚ) ^ (-20 : ℤ) := by
      apply (zpow_le_zpow_iff_right₀ one_lt_two).mpr
      omega
    have hclose : |(c : ℚ) / 100 - (k : ℚ) / 100| ≤ (2:ℚ) ^ (-20 : ℤ) := herr.trans hmono
    have hdiff : |(c : ℚ) - (k : ℚ)| ≤ 100 * (2:ℚ) ^ (-20 : ℤ) := by
      have : (c : ℚ) / 100 - (k : ℚ) / 100 = ((c : ℚ) - (k : ℚ)) / 100 := by ring
      rw [this, abs_div] at hclose
      have h100 : |(100 : ℚ)| = 100 := by norm_num
      rw [h100] at hclose
      linarith [(div_le_iff₀ (by norm_num : (0:ℚ) < 100)).mp hclose]
    have hlt1 : |(c : ℚ) - (k : ℚ)| < 1 := by
      refine hdiff.trans_lt ?_
      norm_num
    have hcastQ : ((c - (k : ℤ) : ℤ) : ℚ) = (c : ℚ) - (k : ℚ) := by
      push_cast
      ring
    have habs : |((c - (k : ℤ) : ℤ) : ℚ)| < 1 := by
      rw [hcastQ]
      exact hlt1
    have hZ : |c - (k : ℤ)| < 1 := by exact_mod_cast habs
    rw [abs_lt] at hZ
    omega

theorem saveWallet_wallets (s : DBState) (w : Wallet) :
    (saveWallet s w).wallets = s.wallets.map (fun x => if x.id == w.id then w else x) := rfl

theorem saveWallet_transactions (s : DBState) (w : Wallet) :
    (saveWallet s w).transactions = s.transactions := rfl

theorem saveWallet_savedCards (s : DBState) (w : Wallet) :
    (saveWallet s w).savedCards = s.savedCards := rfl

theorem saveWallet_today (s : DBState) (w : Wallet) :
    (saveWallet s w).today = s.today := rfl

theorem saveTransaction_wallets (s : DBState) (t : Transaction) :
    (saveTransaction s t).wallets = s.wallets := rfl

theorem saveTransaction_transactions (s : DBState) (t : Transaction) :
    (saveTransaction s t).transactions =
      s.transactions.map (fun x => if x.reference == t.reference then t else x) := rfl

theorem saveTransaction_savedCards (s : DBState) (t : Transaction) :
    (saveTransaction s t).savedCards = s.savedCards := rfl

theorem insertTransaction_wallets (s : DBState) (t : Transaction) :
    (insertTransaction s t).wallets = s.wallets := rfl

theorem insertTransaction_transactions (s : DBState) (t : Transaction) :
    (insertTransaction s t).transactions = t :: s.transactions := rfl

theorem update_analytics_wallets (s : DBState) (uid : Nat) (t : Transaction) :
    (update_analytics s uid t).wallets = s.wallets := rfl

theorem update_analytics_transactions (s : DBState) (uid : Nat) (t : Transaction) :
    (update_analytics s uid t).transactions = s.transactions := rfl

theorem find?_map_replace_eq {α : Type} (key : α → Nat) (w : α) (k : Nat) (hk : key w = k)
    (l : List α) :
    (l.map (fun x => if key x == key w then w else x)).find? (fun x => key x == k) =
      (l.find? (fun x => key x == k)).map (fun _ => w) := by
  induction l with
  | nil => rfl
  | cons x xs ih =>
    rw [List.map_cons]
    by_cases hx : key x = key w
    · have h1 : (key x == key w) = true := beq_iff_eq.mpr hx
      have h2 : (key x == k) = true := beq_iff_eq.mpr (hx.trans hk)
      have h3 : (key w == k) = true := beq_iff_eq.mpr hk
      simp [h1, h2, h3, -List.find?_map]
    · have h1 : (key x == key w) = false := beq_eq_false_iff_ne.mpr hx
      have hxk : key x ≠ k := fun hcon => hx (hcon.trans hk.symm)
      have h2 : (key x == k) = false := beq_eq_false_iff_ne.mpr hxk
      simp [h1, h2, -List.find?_map]
      simp only [beq_iff_eq] at ih
      exact ih

theorem find?_map_replace_ne {α : Type} (key : α → Nat) (w : α) (k : Nat) (hk : key w ≠ k)
    (l : List α) :
    (l.map (fun x => if key x == key w then w else x)).find? (fun x => key x == k) =
      l.find? (fun x => key x == k) := by
  induction l with
  | nil => rfl
  | cons x xs ih =>
    rw [List.map_cons]
    by_cases hx : key x = key w
    · have h1 : (key x == key w) = true := beq_iff_eq.mpr hx
      have hxk : key x ≠ k := fun hcon => hk (hx.symm.trans hcon)
      have h2 : (key x == k) = false := beq_eq_false_iff_ne.mpr hxk
      have h3 : (key w == k) = false := beq_eq_false_iff_ne.mpr hk
      simp [h1, h2, h3, -List.find?_map]
      simp only [beq_iff_eq] at ih
      exact ih
    · have h1 : (key x == key w) = false := beq_eq_false_iff_ne.mpr hx
      by_cases hxk : key x = k
      · have h2 : (key x == k) = true := beq_iff_eq.mpr hxk
        simp [h1, h2, -List.find?_map]
      · have h2 : (key x == k) = false := beq_eq_false_iff_ne.mpr hxk
        simp [h1, h2, -List.find?_map]
        simp only [beq_iff_eq] at ih
        exact ih

theorem nodup_key_inj {α : Type} (key : α → Nat) (l : List α) (hnd : (l.map key).Nodup)
    (a b : α) (ha : a ∈ l) (hb : b ∈ l) (hk : key a = key b) : a = b := by
  induction l with
  | nil => cases ha
  | cons x xs ih =>
    simp only [List.map_cons, List.nodup_cons] at hnd
    rcases List.mem_cons.mp ha with rfl | ha'
    · rcases List.mem_cons.mp hb with rfl | hb'
      · rfl
      · exact absurd (hk ▸ List.mem_map_of_mem key hb') hnd.1
    · rcases List.mem_cons.mp hb with rfl | hb'
      · exact absurd (hk ▸ List.mem_map_of_mem key ha') hnd.1
      · exact ih hnd.2 ha' hb'

theorem find?_key_of_mem {α : Type} (key : α → Nat) (l : List α)
    (hnd : (l.map key).Nodup) (w : α) (hw : w ∈ l) :
    l.find? (fun x => key x == key w) = some w := by
  induction l with
  | nil => cases hw
  | cons x xs ih =>
    simp only [List.map_cons, List.nodup_cons] at hnd
    rcases List.mem_cons.mp hw with rfl | hw'
    · exact List.find?_cons_of_pos _ (beq_self_eq_true _)
    · by_cases hx : key x = key w
      · exact absurd (hx ▸ List.mem_map_of_mem key hw') hnd.1
      · have h1 : (key x == key w) = false := beq_eq_false_iff_ne.mpr hx
        have hstep : List.find? (fun y => key y == key w) (x :: xs) =
            List.find? (fun y => key y == key w) xs :=
          List.find?_cons_of_neg _ (by simp [h1])
        rw [hstep]
        exact ih hnd.2 hw'

theorem findWalletById_saveWallet_self (s : DBState) (w : Wallet) (wid : Nat)
    (h : w.id = wid) :
    findWalletById (saveWallet s w) wid = (findWalletById s wid).map (fun _ => w) :=
  find?_map_replace_eq (fun x : Wallet => x.id) w wid h s.wallets

theorem findWalletById_saveWallet_other (s : DBState) (w : Wallet) (wid : Nat)
    (h : w.id ≠ wid) :
    findWalletById (saveWallet s w) wid = findWalletById s wid :=
  find?_map_replace_ne (fun x : Wallet => x.id) w wid h s.wallets

theorem findTransaction_saveTransaction_self (s : DBState) (t : Transaction) (ref : Nat)
    (h : t.reference = ref) :
    findTransaction (saveTransaction s t) ref = (findTransaction s ref).map (fun _ => t) :=
  find?_map_replace_eq (fun x : Transaction => x.reference) t ref h s.transactions

theorem findWalletById_of_mem (s : DBState) (hnd : walletIdsNodup s) (w : Wallet)
    (hw : w ∈ s.wallets) : findWalletById s w.id = some w :=
  find?_key_of_mem (fun x : Wallet => x.id) s.wallets hnd w hw

theorem applySavedCard_wallets (s : DBState) (u : Nat) (a : Option VerifyAuth) :
    (applySavedCard s u a).wallets = s.wallets := by
  cases a with
  | none => rfl
  | some auth =>
    simp only [applySavedCard]
    split
    · split
      · rfl
      · rfl
    · rfl

theorem applySavedCard_transactions (s : DBState) (u : Nat) (a : Option VerifyAuth) :
    (applySavedCard s u a).transactions = s.transactions := by
  cases a with
  | none => rfl
  | some auth =>
    simp only [applySavedCard]
    split
    · split
      · rfl
      · rfl
    · rfl

theorem paystack_webhook_not_found (s : DBState) (ref nk : Nat) (v : VerifyData)
    (h : findTransaction s ref = none) :
    paystack_webhook s ref nk v = (.referenceNotFound, s) := by
  simp only [paystack_webhook, h]

theorem paystack_webhook_completed (s : DBState) (ref nk : Nat) (v : VerifyData)
    (t : Transaction) (ht : findTransaction s ref = some t)
    (hst : t.status = .completed) :
    paystack_webhook s ref nk v = (.alreadyCompleted, s) := by
  simp only [paystack_webhook, ht]
  rw [if_pos hst]

theorem paystack_webhook_mismatch (s : DBState) (ref nk : Nat) (v : VerifyData)
    (t : Transaction) (ht : findTransaction s ref = some t)
    (hst : t.status ≠ .completed) (hv : v.status = true)
    (hds : v.data_status = "success")
    (hchk : pythonTrueDiv v.amount 100 ≠ (t.amount : ℚ) / 100) :
    paystack_webhook s ref nk v =
      (.amountMismatch,
        saveTransaction s
          { t with
            status := .failed
            narration := "SECURITY WARNING: Amount mismatch after verification." }) := by
  have hcond : (v.status && v.data_status == "success") = true := by
    rw [hv, hds]
    rfl
  simp only [paystack_webhook, ht]
  rw [if_neg hst, if_pos hcond, if_pos hchk]

theorem paystack_webhook_credited (s : DBState) (ref nk : Nat) (v : VerifyData)
    (t : Transaction) (w : Wallet) (ht : findTransaction s ref = some t)
    (hst : t.status ≠ .completed) (hv : v.status = true)
    (hds : v.data_status = "success")
    (hchk : pythonTrueDiv v.amount 100 = (t.amount : ℚ) / 100)
    (hw : findWalletById s t.walletId = some w) :
    paystack_webhook s ref nk v =
      (.walletCredited,
        saveTransaction (saveWallet s { w with balance := w.balance + t.amount })
          { t with
            status := .completed
            transaction_type := .credit
            transaction_category := .deposit
            narration := "Deposit via Paystack. Ref: " ++ toString ref
            balance_before := w.balance
            balance_after := w.balance + t.amount
            completed_at := some s.today }) := by
  have hcond : (v.status && v.data_status == "success") = true := by
    rw [hv, hds]
    rfl
  have hne : ¬(pythonTrueDiv v.amount 100 ≠ (t.amount : ℚ) / 100) := fun hcon => hcon hchk
  simp only [paystack_webhook, ht]
  rw [if_neg hst, if_pos hcond, if_neg hne]
  simp only [hw]

theorem paystack_webhook_verification_failed (s : DBState) (ref nk : Nat) (v : VerifyData)
    (t : Transaction) (ht : findTransaction s ref = some t)
    (hst : t.status ≠ .completed)
    (hcond : (v.status && v.data_status == "success") = false) :
    paystack_webhook s ref nk v =
      (.verificationFailed,
        saveTransaction s
          { t with
            status := .failed
            narration := "Verification Failed. Paystack Status: " ++ v.data_status }) := by
  simp only [paystack_webhook, ht]
  rw [if_neg hst, if_neg (by rw [hcond]; exact Bool.false_ne_true)]

theorem paystack_webhook_credited_inversion (s : DBState) (ref nk : Nat) (v : VerifyData)
    (s' : DBState) (h : paystack_webhook s ref nk v = (.walletCredited, s')) :
    ∃ t w, findTransaction s ref = some t ∧ t.status ≠ .completed ∧
      findWalletById s t.walletId = some w ∧
      s' = saveTransaction (saveWallet s { w with balance := w.balance + t.amount })
        { t with
          status := .completed
          transaction_type := .credit
          transaction_category := .deposit
          narration := "Deposit via Paystack. Ref: " ++ toString ref
          balance_before := w.balance
          balance_after := w.balance + t.amount
          completed_at := some s.today } := by
  unfold paystack_webhook at h
  split at h
  · simp at h
  · rename_i t ht
    split at h
    · simp at h
    · rename_i hst
      split at h
      · split at h
        · simp at h
        · split at h
          · simp at h
          · rename_i w hw
            simp only [Prod.mk.injEq] at h
            exact ⟨t, w, ht, hst, hw, h.2.symm⟩
      · simp at h

theorem paystack_webhook_savedCards (s : DBState) (ref nk : Nat) (v : VerifyData) :
    ((paystack_webhook s ref nk v).2).savedCards = s.savedCards := by
  unfold paystack_webhook
  split
  · rfl
  · split
    · rfl
    · split
      · split
        · rfl
        · split
          · rfl
          · rfl
      · rfl

theorem verify_payment_not_found (s : DBState) (u : UserRec) (ref : Nat) (v : VerifyData)
    (h : findTransaction s ref = none) :
    verify_payment_get s u ref v = (.notFound, s) := by
  simp only [verify_payment_get, h]

theorem verify_payment_unauthorized (s : DBState) (u : UserRec) (ref : Nat) (v : VerifyData)
    (t : Transaction) (w : Wallet) (ht : findTransaction s ref = some t)
    (hw : findWalletById s t.walletId = some w) (hown : w.user.id ≠ u.id) :
    verify_payment_get s u ref v = (.unauthorized, s) := by
  simp only [verify_payment_get, ht, hw]
  rw [if_pos hown]

theorem verify_payment_completed (s : DBState) (u : UserRec) (ref : Nat) (v : VerifyData)
    (t : Transaction) (w : Wallet) (ht : findTransaction s ref = some t)
    (hw : findWalletById s t.walletId = some w) (hown : w.user.id = u.id)
    (hst : t.status = .completed) :
    verify_payment_get s u ref v = (.alreadyCompleted, s) := by
  simp only [verify_payment_get, ht, hw]
  rw [if_neg (fun hcon => hcon hown), if_pos hst]

theorem verify_payment_mismatch (s : DBState) (u : UserRec) (ref : Nat) (v : VerifyData)
    (t : Transaction) (w : Wallet) (ht : findTransaction s ref = some t)
    (hw : findWalletById s t.walletId = some w) (hown : w.user.id = u.id)
    (hst : t.status ≠ .completed) (hv : v.status = true) (hds : v.data_status = "success")
    (hchk : (v.amount : ℚ) / 100 ≠ (t.amount : ℚ) / 100) :
    verify_payment_get s u ref v =
      (.amountMismatch,
        saveTransaction s
          { t with
            status := .failed
            narration := "Amount mismatch" }) := by
  have hcond : (v.status && v.data_status == "success") = true := by
    rw [hv, hds]
    rfl
  simp only [verify_payment_get, ht, hw]
  rw [if_neg (fun hcon => hcon hown), if_neg hst, if_pos hcond, if_pos hchk]

theorem verify_payment_credited (s : DBState) (u : UserRec) (ref : Nat) (v : VerifyData)
    (t : Transaction) (w : Wallet) (ht : findTransaction s ref = some t)
    (hw : findWalletById s t.walletId = some w) (hown : w.user.id = u.id)
    (hst : t.status ≠ .completed) (hv : v.status = true) (hds : v.data_status = "success")
    (hchk : (v.amount : ℚ) / 100 = (t.amount : ℚ) / 100) :
    verify_payment_get s u ref v =
      (.walletCredited,
        applySavedCard
          (saveTransaction (saveWallet s { w with balance := w.balance + t.amount })
            { t with
              status := .completed
              transaction_type := .credit
              transaction_category := .deposit
              narration := "Deposit via Paystack. Ref: " ++ toString ref
              balance_before := w.balance
              balance_after := w.balance + t.amount
              completed_at := some s.today })
          u.id v.authorization) := by
  have hcond : (v.status && v.data_status == "success") = true := by
    rw [hv, hds]
    rfl
  simp only [verify_payment_get, ht, hw]
  rw [if_neg (fun hcon => hcon hown), if_neg hst, if_pos hcond,
    if_neg (fun hcon => hcon hchk)]

theorem verify_payment_credited_inversion (s : DBState) (u : UserRec) (ref : Nat)
    (v : VerifyData) (s' : DBState)
    (h : verify_payment_get s u ref v = (.walletCredited, s')) :
    ∃ t w, findTransaction s ref = some t ∧ findWalletById s t.walletId = some w ∧
      w.user.id = u.id ∧ t.status ≠ .completed ∧
      s' = applySavedCard
        (saveTransaction (saveWallet s { w with balance := w.balance + t.amount })
          { t with
            status := .completed
            transaction_type := .credit
            transaction_category := .deposit
            narration := "Deposit via Paystack. Ref: " ++ toString ref
            balance_before := w.balance
            balance_after := w.balance + t.amount
            completed_at := some s.today })
        u.id v.authorization := by
  unfold verify_payment_get at h
  split at h
  · simp at h
  · rename_i t ht
    split at h
    · simp at h
    · rename_i w hw
      split at h
      · simp at h
      · rename_i hown
        split at h
        · simp at h
        · rename_i hst
          split at h
          · split at h
            · simp at h
            · simp only [Prod.mk.injEq] at h
              exact ⟨t, w, ht, hw, not_ne_iff.mp hown, hst, h.2.symm⟩
          · simp at h

theorem pythonTrueDiv_50000_100 : pythonTrueDiv 50000 100 = ((50000 : ℤ) : ℚ) / 100 := by
  with_unfolding_all rfl

theorem pythonTrueDiv_50010_100_ne : pythonTrueDiv 50010 100 ≠ ((50010 : ℤ) : ℚ) / 100 := by
  with_unfolding_all decide

theorem pythonTrueDiv_50010_100_value :
    pythonTrueDiv 50010 100 = 8797852240812442 / 2 ^ 44 := by
  with_unfolding_all rfl

theorem findWalletById_congr (s1 s2 : DBState) (k : Nat) (h : s1.wallets = s2.wallets) :
    findWalletById s1 k = findWalletById s2 k := by
  simp only [findWalletById, h]

theorem process_transfer_ok_inversion (s : DBState) (swArg : Wallet) (r : UserRec)
    (amount : ℤ) (nar : String) (s' : DBState) (res : TransferResult)
    (h : process_transfer s swArg r amount nar = .ok (s', res)) :
    ∃ sw rw, findWalletById s swArg.id = some sw ∧ findWalletByUser s r.id = some rw ∧
      res.debit_transaction =
        { reference := s.nextRef, walletId := sw.id,
          sender := some sw.user.id, recipient := some r.id,
          transaction_type := .debit, transaction_category := .transfer,
          amount := amount,
          balance_before := sw.balance, balance_after := sw.balance - amount,
          status := .completed, description := "",
          narration := if nar == "" then "Transfer to " ++ r.phone_number else nar,
          completed_at := some s.today } ∧
      res.credit_transaction =
        { reference := s.nextRef + 1, walletId := rw.id,
          sender := some sw.user.id, recipient := some r.id,
          transaction_type := .credit, transaction_category := .transfer,
          amount := amount,
          balance_before := rw.balance, balance_after := rw.balance + amount,
          status := .completed, description := "",
          narration := if nar == "" then "Transfer from " ++ sw.user.phone_number else nar,
          completed_at := some s.today } ∧
      res.sender_balance = sw.balance - amount ∧
      res.recipient_balance = rw.balance + amount ∧
      s'.wallets =
        (saveWallet (saveWallet s { sw with balance := sw.balance - amount })
          { rw with balance := rw.balance + amount }).wallets ∧
      s'.transactions = res.credit_transaction :: res.debit_transaction :: s.transactions := by
  unfold process_transfer at h
  split at h
  · simp at h
  · split at h
    · simp at h
    · rename_i rw hrw
      split at h
      · simp at h
      · split at h
        · simp at h
        · rename_i sw hsw
          simp only [Except.ok.injEq, Prod.mk.injEq] at h
          obtain ⟨hs, hres⟩ := h
          subst hs
          subst hres
          exact ⟨sw, rw, hsw, hrw, rfl, rfl, rfl, rfl, rfl, rfl⟩

theorem findTransaction_congr (s1 s2 : DBState) (k : Nat)
    (h : s1.transactions = s2.transactions) :
    findTransaction s1 k = findTransaction s2 k := by
  simp only [findTransaction, h]

theorem findWalletById_id (s : DBState) (k : Nat) (w : Wallet)
    (h : findWalletById s k = some w) : w.id = k := by
  have h2 : List.find? (fun x => x.id == k) s.wallets = some w := h
  exact beq_iff_eq.mp (@List.find?_some Wallet (fun x => x.id == k) w s.wallets h2)

theorem findWalletById_mem (s : DBState) (k : Nat) (w : Wallet)
    (h : findWalletById s k = some w) : w ∈ s.wallets := by
  have h2 : List.find? (fun x => x.id == k) s.wallets = some w := h
  exact List.mem_of_find?_eq_some h2

theorem findWalletByUser_userId (s : DBState) (k : Nat) (w : Wallet)
    (h : findWalletByUser s k = some w) : w.user.id = k := by
  have h2 : List.find? (fun x => x.user.id == k) s.wallets = some w := h
  exact beq_iff_eq.mp (@List.find?_some Wallet (fun x => x.user.id == k) w s.wallets h2)

theorem findWalletByUser_mem (s : DBState) (k : Nat) (w : Wallet)
    (h : findWalletByUser s k = some w) : w ∈ s.wallets := by
  have h2 : List.find? (fun x => x.user.id == k) s.wallets = some w := h
  exact List.mem_of_find?_eq_some h2

theorem findTransaction_ref (s : DBState) (k : Nat) (t : Transaction)
    (h : findTransaction s k = some t) : t.reference = k := by
  have h2 : List.find? (fun x => x.reference == k) s.transactions = some t := h
  exact beq_iff_eq.mp
    (@List.find?_some Transaction (fun x => x.reference == k) t s.transactions h2)

/-- C2: every successful transfer creates exactly two transaction records — a
debit row on the sender's wallet and a credit row on the recipient's wallet —
carrying the same amount (their signed amounts sum to zero), with distinct
references, both in status completed. -/
theorem C2_transfer_creates_paired_transactions (s : DBState) (swArg : Wallet)
    (r : UserRec) (amount : ℤ) (nar : String) (s' : DBState) (res : TransferResult)
    (h : process_transfer s swArg r amount nar = .ok (s', res)) :
    s'.transactions = res.credit_transaction :: res.debit_transaction :: s.transactions ∧
    res.debit_transaction.transaction_type = .debit ∧
    res.credit_transaction.transaction_type = .credit ∧
    res.debit_transaction.walletId = swArg.id ∧
    (∃ rw, findWalletByUser s r.id = some rw ∧ res.credit_transaction.walletId = rw.id) ∧
    res.debit_transaction.amount = amount ∧
    res.credit_transaction.amount = amount ∧
    signedAmount res.debit_transaction + signedAmount res.credit_transaction = 0 ∧
    res.debit_transaction.reference ≠ res.credit_transaction.reference ∧
    res.debit_transaction.status = .completed ∧
    res.credit_transaction.status = .completed := by
  obtain ⟨sw, rw, hsw, hrw, hdt, hct, hsb, hrb, hws, hts⟩ :=
    process_transfer_ok_inversion s swArg r amount nar s' res h
  have hswid : sw.id = swArg.id := findWalletById_id s swArg.id sw hsw
  refine ⟨hts, ?_, ?_, ?_, ⟨rw, hrw, ?_⟩, ?_, ?_, ?_, ?_, ?_, ?_⟩
  · rw [hdt]
  · rw [hct]
  · rw [hdt, ← hswid]
  · rw [hct]
  · rw [hdt]
  · rw [hct]
  · rw [hdt, hct]
    simp only [signedAmount]
    ring
  · rw [hdt, hct]
    simp only []
    omega
  · rw [hdt]
  · rw [hct]

/-- C3: each failed precondition of a transfer (insufficient balance or
sender wallet inactive/frozen, recipient wallet absent, recipient wallet
inactive or frozen) raises the corresponding error before any write; in
particular a transfer of the sender's balance plus 0.01 fails with the
insufficient-funds error. An `.error` result carries no successor state:
`@db_transaction.atomic` rolls every write back, so wallets, transactions,
beneficiaries and analytics are untouched. -/
theorem C3_transfer_failure_no_mutation :
    (∀ s swArg r amount nar, swArg.can_transact amount = false →
      process_transfer s swArg r amount nar =
        .error "Insufficient balance or wallet is frozen") ∧
    (∀ s swArg r amount nar, swArg.can_transact amount = true →
      findWalletByUser s r.id = none →
      process_transfer s swArg r amount nar = .error "Recipient wallet not found") ∧
    (∀ s swArg r amount nar rw, swArg.can_transact amount = true →
      findWalletByUser s r.id = some rw →
      rw.is_active = false ∨ rw.is_frozen = true →
      process_transfer s swArg r amount nar = .error "Recipient wallet is not active") ∧
    (∀ s (swArg : Wallet) r nar,
      process_transfer s swArg r (swArg.balance + 1) nar =
        .error "Insufficient balance or wallet is frozen") := by
  refine ⟨?_, ?_, ?_, ?_⟩
  · intro s swArg r amount nar hcan
    simp only [process_transfer]
    rw [if_pos (by rw [hcan]; rfl)]
  · intro s swArg r amount nar hcan hnone
    simp only [process_transfer, hnone]
    rw [if_neg (by rw [hcan]; exact Bool.false_ne_true)]
  · intro s swArg r amount nar rw hcan hsome hbad
    have hcond : (!rw.is_active || rw.is_frozen) = true := by
      rcases hbad with hb | hb
      · rw [hb]
        rfl
      · rw [hb]
        simp
    simp only [process_transfer, hsome]
    rw [if_neg (by rw [hcan]; exact Bool.false_ne_true), if_pos hcond]
  · intro s swArg r nar
    have hcan : swArg.can_transact (swArg.balance + 1) = false := by
      simp only [Wallet.can_transact]
      have : ¬(swArg.balance + 1 ≤ swArg.balance) := by omega
      simp [this]
    simp only [process_transfer]
    rw [if_pos (by rw [hcan]; rfl)]

/-- C6 counterexample: the lock order for a transfer from wallet 1 to wallet 2
is [2, 1] — recipient first — which is neither ascending by wallet id nor
equal to the order for the opposite-direction transfer, contradicting the
claimed fixed, role-independent order. -/
theorem C6_lock_order_role_dependent_cex :
    process_transfer_lock_order 1 2 = [2, 1] ∧
    process_transfer_lock_order 2 1 = [1, 2] ∧
    process_transfer_lock_order 1 2 ≠ process_transfer_lock_order 2 1 := by
  decide

/-- C6 amended: `process_transfer` acquires the two row locks in role order —
always the recipient's wallet first (utils.py line 66), then the sender's
wallet (line 74) — so the order depends on which wallet is the recipient,
not on a stable wallet identifier. -/
theorem C6_lock_order_recipient_first (sender_wallet_id recipient_wallet_id : Nat) :
    process_transfer_lock_order sender_wallet_id recipient_wallet_id =
      [recipient_wallet_id, sender_wallet_id] := rfl

/-- C7 counterexample: a webhook notification whose reference matches no
stored transaction is answered with HTTP 404 (an error response, body status
`error`), not acknowledged with a success response as the claim states; no
record is created or modified. -/
theorem C7_unknown_reference_error_cex :
    paystack_webhook baseState 99 50000 verifySuccess500 = (.referenceNotFound, baseState) ∧
    WebhookOutcome.httpStatus .referenceNotFound = 404 := by
  refine ⟨?_, rfl⟩
  exact paystack_webhook_not_found baseState 99 50000 verifySuccess500 (by decide)

/-- C7 amended: for every webhook notification whose reference matches no
stored transaction, the endpoint returns the 404 `Transaction reference not
found` error response (views.py line 765) and neither creates nor modifies
any record. -/
theorem C7_unknown_reference_404_no_mutation (s : DBState) (ref nk : Nat)
    (v : VerifyData) (h : findTransaction s ref = none) :
    paystack_webhook s ref nk v = (.referenceNotFound, s) ∧
    WebhookOutcome.httpStatus .referenceNotFound = 404 :=
  ⟨paystack_webhook_not_found s ref nk v h, rfl⟩

theorem C7_unknown_reference_404_no_mutation_witness :
    findTransaction baseState 99 = none ∧
    (paystack_webhook baseState 99 50000 verifySuccess500 = (.referenceNotFound, baseState) ∧
     WebhookOutcome.httpStatus .referenceNotFound = 404) :=
  ⟨by decide,
    C7_unknown_reference_404_no_mutation baseState 99 50000 verifySuccess500 (by decide)⟩

/-- C10: for every poll of the payment-verification endpoint by an
authenticated user, a referenced transaction whose wallet is owned by someone
else is answered with the 403 unauthorized error before any provider
verification — the response is the same for every possible provider answer
`v` — and the state is returned unchanged. -/
theorem C10_poll_ownership_check (s : DBState) (u : UserRec) (ref : Nat)
    (v : VerifyData) (t : Transaction) (w : Wallet)
    (ht : findTransaction s ref = some t)
    (hw : findWalletById s t.walletId = some w) (hown : w.user.id ≠ u.id) :
    verify_payment_get s u ref v = (.unauthorized, s) ∧
    PollOutcome.httpStatus .unauthorized = 403 :=
  ⟨verify_payment_unauthorized s u ref v t w ht hw hown, rfl⟩

theorem C10_poll_ownership_check_witness :
    findTransaction pendingState 5 = some pendingTxn ∧
    findWalletById pendingState pendingTxn.walletId = some walletA ∧
    walletA.user.id ≠ userB.id ∧
    (verify_payment_get pendingState userB 5 verifySuccess500 = (.unauthorized, pendingState) ∧
     PollOutcome.httpStatus .unauthorized = 403) :=
  ⟨by decide, by decide, by decide,
    C10_poll_ownership_check pendingState userB 5 verifySuccess500 pendingTxn walletA
      (by decide) (by decide) (by decide)⟩

theorem C2_transfer_creates_paired_transactions_witness :
    process_transfer baseState walletA userB 3000 "" = .ok (transferState, transferResultVal) ∧
    (transferState.transactions =
        transferResultVal.credit_transaction :: transferResultVal.debit_transaction ::
          baseState.transactions ∧
      transferResultVal.debit_transaction.transaction_type = .debit ∧
      transferResultVal.credit_transaction.transaction_type = .credit ∧
      transferResultVal.debit_transaction.walletId = walletA.id ∧
      (∃ rw, findWalletByUser baseState userB.id = some rw ∧
        transferResultVal.credit_transaction.walletId = rw.id) ∧
      transferResultVal.debit_transaction.amount = 3000 ∧
      transferResultVal.credit_transaction.amount = 3000 ∧
      signedAmount transferResultVal.debit_transaction +
        signedAmount transferResultVal.credit_transaction = 0 ∧
      transferResultVal.debit_transaction.reference ≠
        transferResultVal.credit_transaction.reference ∧
      transferResultVal.debit_transaction.status = .completed ∧
      transferResultVal.credit_transaction.status = .completed) :=
  ⟨rfl,
    C2_transfer_creates_paired_transactions baseState walletA userB 3000 "" transferState
      transferResultVal rfl⟩

theorem C3_transfer_failure_no_mutation_witness :
    walletA.can_transact (100000000 : ℤ) = false ∧
    process_transfer baseState walletA userB 100000000 "" =
      .error "Insufficient balance or wallet is frozen" ∧
    process_transfer baseState walletA userB (walletA.balance + 1) "" =
      .error "Insufficient balance or wallet is frozen" :=
  ⟨by decide,
    C3_transfer_failure_no_mutation.1 baseState walletA userB 100000000 "" (by decide),
    C3_transfer_failure_no_mutation.2.2.2 baseState walletA userB ""⟩

/-- C1: for every transaction written out as completed — the two transfer
legs, internal deposits, bill payments, and top-ups reconciled to completed
by the webhook or by the poll endpoint — `balance_after` equals
`balance_before` plus the amount for credits and minus the amount for debits,
and `balance_after` equals the owning wallet's balance in the state produced
by the commit. -/
theorem C1_completed_balance_invariant :
    (∀ s swArg r amount nar s' res,
      walletIdsNodup s → swArg ∈ s.wallets → swArg.user.id ≠ r.id →
      process_transfer s swArg r amount nar = .ok (s', res) →
      (res.debit_transaction.status = .completed ∧
       res.debit_transaction.transaction_type = .debit ∧
       res.debit_transaction.balance_after =
         res.debit_transaction.balance_before - res.debit_transaction.amount ∧
       walletBalance s' res.debit_transaction.walletId =
         some res.debit_transaction.balance_after ∧
       res.credit_transaction.status = .completed ∧
       res.credit_transaction.transaction_type = .credit ∧
       res.credit_transaction.balance_after =
         res.credit_transaction.balance_before + res.credit_transaction.amount ∧
       walletBalance s' res.credit_transaction.walletId =
         some res.credit_transaction.balance_after)) ∧
    (∀ s wArg amount pm d s' res,
      add_money_to_wallet s wArg amount pm d = .ok (s', res) →
      (res.transaction.status = .completed ∧
       res.transaction.transaction_type = .credit ∧
       res.transaction.balance_after = res.transaction.balance_before + res.transaction.amount ∧
       walletBalance s' res.transaction.walletId = some res.transaction.balance_after)) ∧
    (∀ s wArg bt amount md s' res,
      process_bill_payment s wArg bt amount md = .ok (s', res) →
      (res.transaction.status = .completed ∧
       res.transaction.transaction_type = .debit ∧
       res.transaction.balance_after = res.transaction.balance_before - res.transaction.amount ∧
       walletBalance s' res.transaction.walletId = some res.transaction.balance_after)) ∧
    (∀ s ref nk v s', paystack_webhook s ref nk v = (.walletCredited, s') →
      ∃ t1, findTransaction s' ref = some t1 ∧ t1.status = .completed ∧
        t1.transaction_type = .credit ∧
        t1.balance_after = t1.balance_before + t1.amount ∧
        walletBalance s' t1.walletId = some t1.balance_after) ∧
    (∀ s u ref v s', verify_payment_get s u ref v = (.walletCredited, s') →
      ∃ t1, findTransaction s' ref = some t1 ∧ t1.status = .completed ∧
        t1.transaction_type = .credit ∧
        t1.balance_after = t1.balance_before + t1.amount ∧
        walletBalance s' t1.walletId = some t1.balance_after) := by
  refine ⟨?_, ?_, ?_, ?_, ?_⟩
  · intro s swArg r amount nar s' res hnd hmem hne h
    obtain ⟨sw, rw, hsw, hrw, hdt, hct, hsb, hrb, hws, hts⟩ :=
      process_transfer_ok_inversion s swArg r amount nar s' res h
    have hswid : sw.id = swArg.id := findWalletById_id s swArg.id sw hsw
    have hrwuser : rw.user.id = r.id := findWalletByUser_userId s r.id rw hrw
    have hswmem : sw ∈ s.wallets := findWalletById_mem s swArg.id sw hsw
    have hrwmem : rw ∈ s.wallets := findWalletByUser_mem s r.id rw hrw
    have hsweq : sw = swArg :=
      nodup_key_inj (fun x : Wallet => x.id) s.wallets hnd sw swArg hswmem hmem hswid
    have hidne : rw.id ≠ sw.id := by
      intro hcon
      have : rw = sw :=
        nodup_key_inj (fun x : Wallet => x.id) s.wallets hnd rw sw hrwmem hswmem hcon
      rw [this, hsweq] at hrwuser
      exact hne hrwuser
    have hbalS :
        walletBalance s' sw.id = some (sw.balance - amount) := by
      have hcongr := findWalletById_congr s'
        (saveWallet (saveWallet s { sw with balance := sw.balance - amount })
          { rw with balance := rw.balance + amount }) sw.id hws
      have h1 := findWalletById_saveWallet_other
        (saveWallet s { sw with balance := sw.balance - amount })
        { rw with balance := rw.balance + amount } sw.id hidne
      have h2 := findWalletById_saveWallet_self s
        { sw with balance := sw.balance - amount } sw.id rfl
      have h3 : findWalletById s sw.id = some sw := by
        rw [hswid]
        exact hsw
      simp only [walletBalance, hcongr, h1, h2, h3]
      rfl
    have hbalR :
        walletBalance s' rw.id = some (rw.balance + amount) := by
      have hcongr := findWalletById_congr s'
        (saveWallet (saveWallet s { sw with balance := sw.balance - amount })
          { rw with balance := rw.balance + amount }) rw.id hws
      have h1 := findWalletById_saveWallet_self
        (saveWallet s { sw with balance := sw.balance - amount })
        { rw with balance := rw.balance + amount } rw.id rfl
      have h2 := findWalletById_saveWallet_other s
        { sw with balance := sw.balance - amount } rw.id (fun hcon => hidne hcon.symm)
      have h3 : findWalletById s rw.id = some rw :=
        findWalletById_of_mem s hnd rw hrwmem
      simp only [walletBalance, hcongr, h1, h2, h3]
      rfl
    refine ⟨?_, ?_, ?_, ?_, ?_, ?_, ?_, ?_⟩
    · rw [hdt]
    · rw [hdt]
    · rw [hdt]
    · rw [hdt]
      exact hbalS
    · rw [hct]
    · rw [hct]
    · rw [hct]
    · rw [hct]
      exact hbalR
  · intro s wArg amount pm d s' res h
    unfold add_money_to_wallet at h
    split at h
    · simp at h
    · rename_i w hw
      simp only [Except.ok.injEq, Prod.mk.injEq] at h
      obtain ⟨hs, hres⟩ := h
      subst hres
      have hwid : w.id = wArg.id := findWalletById_id s wArg.id w hw
      refine ⟨rfl, rfl, rfl, ?_⟩
      have hcg : findWalletById s' w.id =
          findWalletById (saveWallet s { w with balance := w.balance + amount }) w.id :=
        findWalletById_congr s' (saveWallet s { w with balance := w.balance + amount }) w.id
          (by rw [← hs]; rfl)
      have h2 := findWalletById_saveWallet_self s
        { w with balance := w.balance + amount } w.id rfl
      have h3 : findWalletById s w.id = some w := by
        rw [hwid]
        exact hw
      simp only [walletBalance, hcg, h2, h3]
      rfl
  · intro s wArg bt amount md s' res h
    unfold process_bill_payment at h
    split at h
    · simp at h
    · split at h
      · simp at h
      · rename_i w hw
        simp only [Except.ok.injEq, Prod.mk.injEq] at h
        obtain ⟨hs, hres⟩ := h
        subst hres
        have hwid : w.id = wArg.id := findWalletById_id s wArg.id w hw
        refine ⟨rfl, rfl, rfl, ?_⟩
        have hcg : findWalletById s' w.id =
            findWalletById (saveWallet s { w with balance := w.balance - amount }) w.id :=
          findWalletById_congr s' (saveWallet s { w with balance := w.balance - amount }) w.id
            (by rw [← hs]; rfl)
        have h2 := findWalletById_saveWallet_self s
          { w with balance := w.balance - amount } w.id rfl
        have h3 : findWalletById s w.id = some w := by
          rw [hwid]
          exact hw
        simp only [walletBalance, hcg, h2, h3]
        rfl
  · intro s ref nk v s' h
    obtain ⟨t, w, ht, hst, hw, hs⟩ := paystack_webhook_credited_inversion s ref nk v s' h
    have htref : t.reference = ref := findTransaction_ref s ref t ht
    have hwid : w.id = t.walletId := findWalletById_id s t.walletId w hw
    set T : Transaction :=
      { t with
        status := .completed
        transaction_type := .credit
        transaction_category := .deposit
        narration := "Deposit via Paystack. Ref: " ++ toString ref
        balance_before := w.balance
        balance_after := w.balance + t.amount
        completed_at := some s.today } with hT
    set W : Wallet := { w with balance := w.balance + t.amount } with hW
    refine ⟨T, ?_, ?_, ?_, ?_, ?_⟩
    · rw [hs]
      have h1 := findTransaction_saveTransaction_self (saveWallet s W) T ref
        (by rw [hT]; exact htref)
      have hcg := findTransaction_congr (saveWallet s W) s ref rfl
      rw [h1, hcg, ht]
      rfl
    · rw [hT]
    · rw [hT]
    · rw [hT]
    · rw [hs]
      have hTw : T.walletId = t.walletId := by rw [hT]
      rw [hTw]
      have hfc : findWalletById (saveTransaction (saveWallet s W) T) t.walletId =
          findWalletById (saveWallet s W) t.walletId :=
        findWalletById_congr (saveTransaction (saveWallet s W) T) (saveWallet s W)
          t.walletId (saveTransaction_wallets (saveWallet s W) T)
      have h1 := findWalletById_saveWallet_self s W t.walletId (by rw [hW]; exact hwid)
      simp only [walletBalance, hfc, h1, hw]
      rfl
  · intro s u ref v s' h
    obtain ⟨t, w, ht, hw, hown, hst, hs⟩ := verify_payment_credited_inversion s u ref v s' h
    have htref : t.reference = ref := findTransaction_ref s ref t ht
    have hwid : w.id = t.walletId := findWalletById_id s t.walletId w hw
    set T : Transaction :=
      { t with
        status := .completed
        transaction_type := .credit
        transaction_category := .deposit
        narration := "Deposit via Paystack. Ref: " ++ toString ref
        balance_before := w.balance
        balance_after := w.balance + t.amount
        completed_at := some s.today } with hT
    set W : Wallet := { w with balance := w.balance + t.amount } with hW
    refine ⟨T, ?_, ?_, ?_, ?_, ?_⟩
    · rw [hs]
      have h2 := applySavedCard_transactions (saveTransaction (saveWallet s W) T)
        u.id v.authorization
      have hfc := findTransaction_congr
        (applySavedCard (saveTransaction (saveWallet s W) T) u.id v.authorization)
        (saveTransaction (saveWallet s W) T) ref h2
      have h1 := findTransaction_saveTransaction_self (saveWallet s W) T ref
        (by rw [hT]; exact htref)
      have hcg := findTransaction_congr (saveWallet s W) s ref rfl
      rw [hfc, h1, hcg, ht]
      rfl
    · rw [hT]
    · rw [hT]
    · rw [hT]
    · rw [hs]
      have hTw : T.walletId = t.walletId := by rw [hT]
      rw [hTw]
      have hwc := applySavedCard_wallets (saveTransaction (saveWallet s W) T)
        u.id v.authorization
      have hfc := findWalletById_congr
        (applySavedCard (saveTransaction (saveWallet s W) T) u.id v.authorization)
        (saveTransaction (saveWallet s W) T) t.walletId hwc
      have hfc2 : findWalletById (saveTransaction (saveWallet s W) T) t.walletId =
          findWalletById (saveWallet s W) t.walletId :=
        findWalletById_congr (saveTransaction (saveWallet s W) T) (saveWallet s W)
          t.walletId (saveTransaction_wallets (saveWallet s W) T)
      have h1 := findWalletById_saveWallet_self s W t.walletId (by rw [hW]; exact hwid)
      simp only [walletBalance, hfc, hfc2, h1, hw]
      rfl

theorem C1_completed_balance_invariant_witness :
    walletIdsNodup baseState ∧ walletA ∈ baseState.wallets ∧ walletA.user.id ≠ userB.id ∧
    process_transfer baseState walletA userB 3000 "" = .ok (transferState, transferResultVal) ∧
    (transferResultVal.debit_transaction.status = .completed ∧
     transferResultVal.debit_transaction.transaction_type = .debit ∧
     transferResultVal.debit_transaction.balance_after =
       transferResultVal.debit_transaction.balance_before -
         transferResultVal.debit_transaction.amount ∧
     walletBalance transferState transferResultVal.debit_transaction.walletId =
       some transferResultVal.debit_transaction.balance_after ∧
     transferResultVal.credit_transaction.status = .completed ∧
     transferResultVal.credit_transaction.transaction_type = .credit ∧
     transferResultVal.credit_transaction.balance_after =
       transferResultVal.credit_transaction.balance_before +
         transferResultVal.credit_transaction.amount ∧
     walletBalance transferState transferResultVal.credit_transaction.walletId =
       some transferResultVal.credit_transaction.balance_after) :=
  ⟨by simp only [walletIdsNodup]; decide, by decide, by decide, rfl,
    C1_completed_balance_invariant.1 baseState walletA userB 3000 "" transferState
      transferResultVal (by simp only [walletIdsNodup]; decide) (by decide) (by decide) rfl⟩

/-- C4: whenever the authoritative provider re-verification reports a success
whose amount (in minor units, within the 12-digit decimal field bound)
differs from the stored transaction's amount, reconciliation — webhook or
poll — marks the transaction failed with the respective mismatch narration
and leaves every wallet row untouched, regardless of what the inbound
notification claimed (`nk` is arbitrary on the webhook path). -/
theorem C4_amount_mismatch_forces_failed :
    (∀ s ref nk v t, findTransaction s ref = some t → t.status ≠ .completed →
      v.status = true → v.data_status = "success" → v.amount < 2 ^ 40 →
      (v.amount : ℤ) ≠ t.amount →
      ((paystack_webhook s ref nk v).1 = .amountMismatch ∧
       (∃ t1, findTransaction (paystack_webhook s ref nk v).2 ref = some t1 ∧
         t1.status = .failed ∧
         t1.narration = "SECURITY WARNING: Amount mismatch after verification.") ∧
       ((paystack_webhook s ref nk v).2).wallets = s.wallets)) ∧
    (∀ s u ref v t w, findTransaction s ref = some t →
      findWalletById s t.walletId = some w → w.user.id = u.id →
      t.status ≠ .completed → v.status = true → v.data_status = "success" →
      (v.amount : ℤ) ≠ t.amount →
      ((verify_payment_get s u ref v).1 = .amountMismatch ∧
       (∃ t1, findTransaction (verify_payment_get s u ref v).2 ref = some t1 ∧
         t1.status = .failed ∧ t1.narration = "Amount mismatch") ∧
       ((verify_payment_get s u ref v).2).wallets = s.wallets)) := by
  constructor
  · intro s ref nk v t ht hst hv hds hbound hne
    have htref : t.reference = ref := findTransaction_ref s ref t ht
    have hchk : pythonTrueDiv v.amount 100 ≠ (t.amount : ℚ) / 100 := by
      intro heq
      exact hne (roundFloat64_div100_injective v.amount t.amount hbound heq)
    have hrun := paystack_webhook_mismatch s ref nk v t ht hst hv hds hchk
    rw [hrun]
    refine ⟨rfl, ?_, saveTransaction_wallets s _⟩
    refine ⟨{ t with
      status := .failed
      narration := "SECURITY WARNING: Amount mismatch after verification." }, ?_, rfl, rfl⟩
    have h1 := findTransaction_saveTransaction_self s
      { t with
        status := .failed
        narration := "SECURITY WARNING: Amount mismatch after verification." } ref htref
    rw [h1, ht]
    rfl
  · intro s u ref v t w ht hw hown hst hv hds hne
    have htref : t.reference = ref := findTransaction_ref s ref t ht
    have hchk : (v.amount : ℚ) / 100 ≠ (t.amount : ℚ) / 100 := by
      intro heq
      apply hne
      have h100 : ((v.amount : ℚ)) = (t.amount : ℚ) := by
        field_simp at heq
        exact_mod_cast heq
      exact_mod_cast h100
    have hrun := verify_payment_mismatch s u ref v t w ht hw hown hst hv hds hchk
    rw [hrun]
    refine ⟨rfl, ?_, saveTransaction_wallets s _⟩
    refine ⟨{ t with
      status := .failed
      narration := "Amount mismatch" }, ?_, rfl, rfl⟩
    have h1 := findTransaction_saveTransaction_self s
      { t with
        status := .failed
        narration := "Amount mismatch" } ref htref
    rw [h1, ht]
    rfl

theorem C4_amount_mismatch_forces_failed_witness :
    findTransaction pendingState 5 = some pendingTxn ∧
    pendingTxn.status ≠ .completed ∧
    verifyWrong600.status = true ∧
    verifyWrong600.data_status = "success" ∧
    verifyWrong600.amount < 2 ^ 40 ∧
    (verifyWrong600.amount : ℤ) ≠ pendingTxn.amount ∧
    ((paystack_webhook pendingState 5 777 verifyWrong600).1 = .amountMismatch ∧
     (∃ t1, findTransaction (paystack_webhook pendingState 5 777 verifyWrong600).2 5 = some t1 ∧
       t1.status = .failed ∧
       t1.narration = "SECURITY WARNING: Amount mismatch after verification.") ∧
     ((paystack_webhook pendingState 5 777 verifyWrong600).2).wallets = pendingState.wallets) :=
  ⟨by decide, by decide, by decide, by decide, by decide, by decide,
    C4_amount_mismatch_forces_failed.1 pendingState 5 777 verifyWrong600 pendingTxn
      (by decide) (by decide) (by decide) (by decide) (by decide) (by decide)⟩

/-- C5: reconciliation is idempotent. A transaction already completed is
answered with the success response `Transaction already completed` and the
state is returned unmutated, on both the webhook and the poll path; and
after a call that credits the wallet, a second call on the same reference —
with any provider data — is exactly such a no-op, so two reconcile calls
produce one balance credit and report success both times. -/
theorem C5_reconcile_idempotent :
    (∀ s ref nk v t, findTransaction s ref = some t → t.status = .completed →
      paystack_webhook s ref nk v = (.alreadyCompleted, s)) ∧
    (∀ s u ref v t w, findTransaction s ref = some t →
      findWalletById s t.walletId = some w → w.user.id = u.id → t.status = .completed →
      verify_payment_get s u ref v = (.alreadyCompleted, s)) ∧
    (∀ s ref nk v s' nk2 v2, paystack_webhook s ref nk v = (.walletCredited, s') →
      paystack_webhook s' ref nk2 v2 = (.alreadyCompleted, s')) ∧
    (∀ s u ref v s' v2, verify_payment_get s u ref v = (.walletCredited, s') →
      verify_payment_get s' u ref v2 = (.alreadyCompleted, s')) ∧
    WebhookOutcome.httpStatus .alreadyCompleted = 200 ∧
    PollOutcome.httpStatus .alreadyCompleted = 200 ∧
    PollOutcome.isSuccess .alreadyCompleted = true ∧
    PollOutcome.isSuccess .walletCredited = true := by
  refine ⟨?_, ?_, ?_, ?_, rfl, rfl, rfl, rfl⟩
  · intro s ref nk v t ht hst
    exact paystack_webhook_completed s ref nk v t ht hst
  · intro s u ref v t w ht hw hown hst
    exact verify_payment_completed s u ref v t w ht hw hown hst
  · intro s ref nk v s' nk2 v2 h
    obtain ⟨t, w, ht, hst, hw, hs⟩ := paystack_webhook_credited_inversion s ref nk v s' h
    have htref : t.reference = ref := findTransaction_ref s ref t ht
    set T : Transaction :=
      { t with
        status := .completed
        transaction_type := .credit
        transaction_category := .deposit
        narration := "Deposit via Paystack. Ref: " ++ toString ref
        balance_before := w.balance
        balance_after := w.balance + t.amount
        completed_at := some s.today } with hT
    set W : Wallet := { w with balance := w.balance + t.amount } with hW
    have hfind : findTransaction s' ref = some T := by
      rw [hs]
      have h1 := findTransaction_saveTransaction_self (saveWallet s W) T ref
        (by rw [hT]; exact htref)
      have hcg := findTransaction_congr (saveWallet s W) s ref rfl
      rw [h1, hcg, ht]
      rfl
    exact paystack_webhook_completed s' ref nk2 v2 T hfind (by rw [hT])
  · intro s u ref v s' v2 h
    obtain ⟨t, w, ht, hw, hown, hst, hs⟩ := verify_payment_credited_inversion s u ref v s' h
    have htref : t.reference = ref := findTransaction_ref s ref t ht
    have hwid : w.id = t.walletId := findWalletById_id s t.walletId w hw
    set T : Transaction :=
      { t with
        status := .completed
        transaction_type := .credit
        transaction_category := .deposit
        narration := "Deposit via Paystack. Ref: " ++ toString ref
        balance_before := w.balance
        balance_after := w.balance + t.amount
        completed_at := some s.today } with hT
    set W : Wallet := { w with balance := w.balance + t.amount } with hW
    have hfind : findTransaction s' ref = some T := by
      rw [hs]
      have h2 := applySavedCard_transactions (saveTransaction (saveWallet s W) T)
        u.id v.authorization
      have hfc := findTransaction_congr
        (applySavedCard (saveTransaction (saveWallet s W) T) u.id v.authorization)
        (saveTransaction (saveWallet s W) T) ref h2
      have h1 := findTransaction_saveTransaction_self (saveWallet s W) T ref
        (by rw [hT]; exact htref)
      have hcg := findTransaction_congr (saveWallet s W) s ref rfl
      rw [hfc, h1, hcg, ht]
      rfl
    have hWfind : findWalletById s' T.walletId = some W := by
      rw [hs]
      have hTw : T.walletId = t.walletId := by rw [hT]
      rw [hTw]
      have hwc := applySavedCard_wallets (saveTransaction (saveWallet s W) T)
        u.id v.authorization
      have hfc := findWalletById_congr
        (applySavedCard (saveTransaction (saveWallet s W) T) u.id v.authorization)
        (saveTransaction (saveWallet s W) T) t.walletId hwc
      have hfc2 : findWalletById (saveTransaction (saveWallet s W) T) t.walletId =
          findWalletById (saveWallet s W) t.walletId :=
        findWalletById_congr (saveTransaction (saveWallet s W) T) (saveWallet s W)
          t.walletId (saveTransaction_wallets (saveWallet s W) T)
      have h1 := findWalletById_saveWallet_self s W t.walletId (by rw [hW]; exact hwid)
      rw [hfc, hfc2, h1, hw]
      rfl
    have hWown : W.user.id = u.id := by
      rw [hW]
      exact hown
    exact verify_payment_completed s' u ref v2 T W hfind hWfind hWown (by rw [hT])

theorem C5_reconcile_idempotent_witness :
    findTransaction creditedState 5 = some creditedTxn ∧
    findWalletById creditedState creditedTxn.walletId = some { walletA with balance := 150000 } ∧
    ({ walletA with balance := 150000 } : Wallet).user.id = userA.id ∧
    creditedTxn.status = .completed ∧
    verify_payment_get creditedState userA 5 verifySuccess500 = (.alreadyCompleted, creditedState) :=
  ⟨by decide, by decide, by decide, by decide,
    C5_reconcile_idempotent.2.1 creditedState userA 5 verifySuccess500 creditedTxn
      { walletA with balance := 150000 } (by decide) (by decide) (by decide) (by decide)⟩

theorem cast_50000_div : ((50000 : ℕ) : ℚ) / 100 = ((50000 : ℤ) : ℚ) / 100 := by
  norm_num

theorem cast_50010_div : ((50010 : ℕ) : ℚ) / 100 = ((50010 : ℤ) : ℚ) / 100 := by
  norm_num

/-- C8 (code bug): the webhook path converts the provider's minor-unit amount
with Python float division (`verified_amount_kobo / 100`, views.py line 787)
instead of the exact `Decimal` conversion its own comment announces and the
poll path uses. For a 500.00 top-up conversion happens to be exact and the
wallet is credited; but for a 500.10 top-up verified at exactly 50010 kobo —
100 times the stored amount — the float 50010 / 100 is not equal to the
decimal 500.10, so the webhook marks the transaction failed with the
security narration and never credits the wallet, while the poll path credits
the same transaction by exactly 500.10. -/
theorem C8_webhook_float_division_bug :
    paystack_webhook pendingState 5 50000 verifySuccess500 = (.walletCredited, creditedState) ∧
    paystack_webhook pendingState1010 5 50010 verifySuccess50010 =
      (.amountMismatch, failedState1010) ∧
    walletBalance failedState1010 1 = some 100000 ∧
    failedTxn1010.status = .failed ∧
    verify_payment_get pendingState1010 userA 5 verifySuccess50010 =
      (.walletCredited, creditedState1010) ∧
    walletBalance creditedState1010 1 = some 150010 := by
  refine ⟨?_, ?_, by decide, by decide, ?_, by decide⟩
  · have hrun := paystack_webhook_credited pendingState 5 50000 verifySuccess500
      pendingTxn walletA (by decide) (by decide) rfl rfl pythonTrueDiv_50000_100 (by decide)
    rw [hrun]
    decide
  · have hrun := paystack_webhook_mismatch pendingState1010 5 50010 verifySuccess50010
      pendingTxn1010 (by decide) (by decide) rfl rfl pythonTrueDiv_50010_100_ne
    rw [hrun]
    decide
  · have hrun := verify_payment_credited pendingState1010 userA 5 verifySuccess50010
      pendingTxn1010 walletA (by decide) (by decide) rfl (by decide) rfl rfl cast_50010_div
    rw [hrun]
    decide

/-- C9 counterexample: a webhook reconciliation that succeeds with a reusable
charge authorization in the verification response (`verifySuccessAuth`)
credits the wallet yet persists no SavedCard — the webhook path has no card
saving code — contradicting the claim that both entry points persist one. -/
theorem C9_webhook_never_saves_card_cex :
    paystack_webhook pendingState 5 50000 verifySuccessAuth = (.walletCredited, creditedState) ∧
    creditedState.savedCards = [] ∧
    verifySuccessAuth.authorization = some verifyAuth1 ∧
    verifyAuth1.authorization_code ≠ "" := by
  refine ⟨?_, by decide, rfl, by decide⟩
  have hrun := paystack_webhook_credited pendingState 5 50000 verifySuccessAuth
    pendingTxn walletA (by decide) (by decide) rfl rfl pythonTrueDiv_50000_100 (by decide)
  rw [hrun]
  decide

/-- C9 amended: only the poll entry point persists saved cards. The webhook
path never changes the SavedCard table, whatever the provider returned; the
poll path, on a verified success whose response carries a charge
authorization with a nonempty code not already stored, prepends exactly one
SavedCard for the requesting user, default precisely when the user had no
cards yet. -/
theorem C9_saved_card_poll_only :
    (∀ s ref nk v, ((paystack_webhook s ref nk v).2).savedCards = s.savedCards) ∧
    (∀ s u ref v s' auth, verify_payment_get s u ref v = (.walletCredited, s') →
      v.authorization = some auth → auth.authorization_code ≠ "" →
      s.savedCards.any (fun c => c.authorization_code == auth.authorization_code) = false →
      ∃ card, s'.savedCards = card :: s.savedCards ∧ card.userId = u.id ∧
        card.authorization_code = auth.authorization_code ∧
        card.is_default = !(s.savedCards.any (fun c => c.userId == u.id))) := by
  constructor
  · exact paystack_webhook_savedCards
  · intro s u ref v s' auth h hauth hcode hnostored
    obtain ⟨t, w, ht, hw, hown, hst, hs⟩ := verify_payment_credited_inversion s u ref v s' h
    set T : Transaction :=
      { t with
        status := .completed
        transaction_type := .credit
        transaction_category := .deposit
        narration := "Deposit via Paystack. Ref: " ++ toString ref
        balance_before := w.balance
        balance_after := w.balance + t.amount
        completed_at := some s.today } with hT
    set W : Wallet := { w with balance := w.balance + t.amount } with hW
    rw [hs, hauth]
    have hsc : (saveTransaction (saveWallet s W) T).savedCards = s.savedCards := rfl
    simp only [applySavedCard, hsc]
    rw [if_pos hcode, if_pos (by rw [hnostored]; rfl)]
    exact ⟨_, rfl, rfl, rfl, rfl⟩

theorem C9_saved_card_poll_only_witness :
    verify_payment_get pendingState userA 5 verifySuccessAuth =
      (.walletCredited, creditedStateCard) ∧
    verifySuccessAuth.authorization = some verifyAuth1 ∧
    verifyAuth1.authorization_code ≠ "" ∧
    pendingState.savedCards.any
      (fun c => c.authorization_code == verifyAuth1.authorization_code) = false ∧
    (∃ card, creditedStateCard.savedCards = card :: pendingState.savedCards ∧
      card.userId = userA.id ∧
      card.authorization_code = verifyAuth1.authorization_code ∧
      card.is_default = !(pendingState.savedCards.any (fun c => c.userId == userA.id))) := by
  have hrun : verify_payment_get pendingState userA 5 verifySuccessAuth =
      (.walletCredited, creditedStateCard) := by
    have h0 := verify_payment_credited pendingState userA 5 verifySuccessAuth
      pendingTxn walletA (by decide) (by decide) rfl (by decide) rfl rfl cast_50000_div
    rw [h0]
    decide
  exact ⟨hrun, rfl, by decide, by decide,
    C9_saved_card_poll_only.2 pendingState userA 5 verifySuccessAuth creditedStateCard
      verifyAuth1 hrun rfl (by decide) (by decide)⟩
